import Mathlib

/-!
Shallow embedding of the packetd dispatch core (services/dispatch/nfqueue.go),
the geoip plugin handler (plugins/geoip/geoip.go) and the kernel nftables
ruleset installed by the provisioning script, together with proofs of the
specified properties of the per-packet pipeline.

Machine integers (ctid, packet mark, ports) are modelled as `Nat`; all mask
arithmetic in the source stays below 2^32, so no explicit wraparound is
needed.  Concurrency (the per-tier fan-out of plugin handler goroutines) is
modelled by an outcome oracle: for each plugin the environment says whether
its handler returns a result before the 30-second watchdog fires or does not
(`hangs`).  The channel dataflow of the dispatcher is modelled exactly: the
wrapper goroutine forwards a handler result to `resultsChannel` only in the
non-timeout branch of its `select`.
-/

namespace Packetd

/-- Raw IP address bytes (4 for IPv4, 16 for IPv6), as produced by gopacket. -/
abbrev IPAddr := List Nat

/-- `net.IP.IsLoopback`: 127.0.0.0/8 for IPv4, ::1 for IPv6. -/
def IPAddr.isLoopback (a : IPAddr) : Bool :=
  (a.length = 4 && a.headD 0 = 127) || (a = List.replicate 15 0 ++ [1])

/-- Client-side 5-tuple of a flow (dispatch.Tuple).
Modelled from the spec: the Tuple type and its byte-for-byte `Equal`
comparison live in a dispatch source file not included here; §3 defines it as
(protocol, client address, client port, server address, server port). -/
structure Tuple where
  protocol : Nat
  clientAddress : IPAddr
  clientPort : Nat
  serverAddress : IPAddr
  serverPort : Nat
deriving DecidableEq, Repr

/-- One nfqueue subscription: plugin name and priority.
Modelled from the spec: the SubscriptionHolder type lives in a dispatch
source file not included here; §3 "Subscription" gives its fields (the
handler itself is represented by the plugin outcome oracle). -/
structure SubscriptionHolder where
  owner : String
  priority : Nat
deriving DecidableEq, Repr

/-- Userspace per-flow object (dispatch.Session).
Modelled from the spec: the Session struct and its getters/setters live in a
dispatch source file not included here; §3 "Session" lists the attributes. -/
structure Session where
  sessionID : Nat
  conntrackID : Nat
  creationTime : Nat
  lastActivity : Nat
  packetCount : Nat
  byteCount : Nat
  eventCount : Nat
  clientSideTuple : Tuple
  family : Nat
  conntrackConfirmed : Bool
  clientInterfaceID : Nat
  clientInterfaceType : Nat
  serverInterfaceID : Nat
  serverInterfaceType : Nat
  subscriptions : List SubscriptionHolder
  attachments : List (String × String)
deriving DecidableEq, Repr

/-- A typed dictionary value (services/dict value).
Modelled from the spec: §4.1, values carry a type tag; the dispatch core
writes booleans and strings. -/
inductive DictValue where
  | b (v : Bool)
  | s (v : String)
deriving DecidableEq, Repr

/-- The state touched by the dispatch core: session table, conntrack table
(only key membership matters to the dispatcher), the `sessions` table of the
dictionary, the emitted error counters, the session-id allocator and the
global nfqueue subscription registry. -/
structure DispatchState where
  sessionTable : List (Nat × Session)
  conntrackTable : List Nat
  dictSessions : List (Nat × List (String × DictValue))
  errorCounters : List String
  nextSessionID : Nat
  registry : List SubscriptionHolder
deriving DecidableEq, Repr

/-- Association-list lookup by key. -/
def lookupTable {κ α : Type} [DecidableEq κ] (l : List (κ × α)) (k : κ) :
    Option α :=
  (l.find? (fun p => p.1 = k)).map (fun p => p.2)

/-- Association-list insert: overwrites any existing entry for the key.
Modelled from the spec: §4.2, inserting an entry with an existing key
overwrites. -/
def insertTable {κ α : Type} [DecidableEq κ] (l : List (κ × α)) (k : κ)
    (v : α) : List (κ × α) :=
  (k, v) :: l.filter (fun p => ¬ p.1 = k)

/-- Association-list removal; idempotent.
Modelled from the spec: §4.2, removal is idempotent. -/
def removeTable {κ α : Type} [DecidableEq κ] (l : List (κ × α)) (k : κ) :
    List (κ × α) :=
  l.filter (fun p => ¬ p.1 = k)

/-- Association-list in-place value replacement at a key (models mutation
through a shared pointer to the stored object). -/
def updateEntry {κ α : Type} [DecidableEq κ] (l : List (κ × α)) (k : κ)
    (v : α) : List (κ × α) :=
  l.map (fun p => if p.1 = k then (k, v) else p)

/-- `findSession` — session-table lookup.
Modelled from the spec: §4.2 session table `find`. -/
def findSession (st : DispatchState) (ctid : Nat) : Option Session :=
  lookupTable st.sessionTable ctid

/-- `insertSessionTable` — insert the forward mapping ctid → session.
Modelled from the spec: §4.2 session table `insert`. -/
def insertSessionTable (st : DispatchState) (ctid : Nat) (sess : Session) :
    DispatchState :=
  { st with sessionTable := insertTable st.sessionTable ctid sess }

/-- `session.removeFromSessionTable()`.
Modelled from the spec: §4.2 session table `remove`. -/
def removeFromSessionTable (st : DispatchState) (ctid : Nat) : DispatchState :=
  { st with sessionTable := removeTable st.sessionTable ctid }

/-- Replace the session stored under `ctid` (models mutation through the
shared pointer held by the table). -/
def updateSession (st : DispatchState) (ctid : Nat) (sess : Session) :
    DispatchState :=
  { st with sessionTable := updateEntry st.sessionTable ctid sess }

/-- `findConntrack` — conntrack-table membership.
Modelled from the spec: §4.2 conntrack table `find`; only key membership is
observable to the nfqueue dispatcher. -/
def findConntrack (st : DispatchState) (ctid : Nat) : Bool :=
  st.conntrackTable.contains ctid

/-- `removeConntrack`.
Modelled from the spec: §4.2 conntrack table `remove`. -/
def removeConntrack (st : DispatchState) (ctid : Nat) : DispatchState :=
  { st with conntrackTable := st.conntrackTable.filter (fun k => ¬ k = ctid) }

/-- `dict.AddSessionEntry(ctid, field, value)`.
Modelled from the spec: §4.1 `set(table, key, field, value)` on the
`sessions` table, idempotent with last-writer-wins semantics. -/
def addSessionEntry (st : DispatchState) (ctid : Nat) (field : String)
    (v : DictValue) : DispatchState :=
  let fields := (lookupTable st.dictSessions ctid).getD []
  { st with
    dictSessions := insertTable st.dictSessions ctid (insertTable fields field v) }

/-- Erase the whole `sessions[ctid]` dictionary entry (the ruleset's
`dict sessions ct id flush`). -/
def flushSessionDict (st : DispatchState) (ctid : Nat) : DispatchState :=
  { st with dictSessions := removeTable st.dictSessions ctid }

/-- Read one field of `sessions[ctid]` in the dictionary. -/
def lookupDictField (st : DispatchState) (ctid : Nat) (field : String) :
    Option DictValue :=
  (lookupTable st.dictSessions ctid).bind (fun fields => lookupTable fields field)

/-- `sessions[ctid].bypass_packetd == true` holds in the dictionary. -/
def bypassSet (st : DispatchState) (ctid : Nat) : Prop :=
  lookupDictField st ctid "bypass_packetd" = some (DictValue.b true)

instance (st : DispatchState) (ctid : Nat) : Decidable (bypassSet st ctid) := by
  unfold bypassSet; infer_instance

/-- NfDrop is the NF_DROP constant. -/
def NfDrop : Nat := 0

/-- NfAccept is the NF_ACCEPT constant. -/
def NfAccept : Nat := 1

/-- NfqueueResult returned by a subscription handler. -/
structure NfqueueResult where
  sessionRelease : Bool
deriving DecidableEq, Repr

/-- subscriberResult travelling on the dispatcher's channels. -/
structure SubscriberResult where
  owner : String
  sessionRelease : Bool
deriving DecidableEq, Repr

/-- Environment's behaviour of one plugin handler invocation: either it
returns an NfqueueResult before the 30-second watchdog fires, or it does not
return in time (sleeps forever or merely longer than the watchdog). -/
inductive PluginOutcome where
  | returns (sessionRelease : Bool)
  | hangs
deriving DecidableEq, Repr

/-- ReleaseSession (nfqueue.go lines 56-72): called by a subscriber to stop
receiving traffic for a session.  Early-returns when the subscription set is
already empty; otherwise deletes the owner's entry and, when the set becomes
empty, writes `bypass_packetd=true` for `session.GetConntrackID()`.
The Go function mutates the session through a shared pointer; here the
session is addressed by the table key `ctid` under which it is stored. -/
def ReleaseSession (st : DispatchState) (ctid : Nat) (owner : String) :
    DispatchState :=
  match findSession st ctid with
  | none => st
  | some sess =>
    if sess.subscriptions.length = 0 then st
    else
      let subs := sess.subscriptions.filter (fun h => ¬ h.owner = owner)
      let st' := updateSession st ctid { sess with subscriptions := subs }
      if subs.length = 0 then
        addSessionEntry st' sess.conntrackID "bypass_packetd" (DictValue.b true)
      else st'

/-- `MirrorNfqueueSubscriptions(session)` — snapshot of the per-session live
subscription set.
Modelled from the spec: §4.3, readers during a packet take a snapshot. -/
def MirrorNfqueueSubscriptions (sess : Session) : List SubscriptionHolder :=
  sess.subscriptions

/-- createSession (nfqueue.go lines 347-363): creates a new session and
inserts the forward mapping into the session table.
`AttachNfqueueSubscriptions` is modelled from the spec (§4.3): each session,
when created, takes a snapshot of the global nfqueue subscription set. -/
def createSession (st : DispatchState) (msgTuple : Tuple)
    (family packetLength ctid now : Nat) : DispatchState × Session :=
  let sess : Session :=
    { sessionID := st.nextSessionID
      conntrackID := ctid
      creationTime := now
      lastActivity := now
      packetCount := 1
      byteCount := packetLength
      eventCount := 1
      clientSideTuple := msgTuple
      family := family
      conntrackConfirmed := false
      clientInterfaceID := 0
      clientInterfaceType := 0
      serverInterfaceID := 0
      serverInterfaceType := 0
      subscriptions := st.registry
      attachments := [] }
  (insertSessionTable { st with nextSessionID := st.nextSessionID + 1 } ctid sess,
   sess)

/-- The subscriptions of `sublist` at one priority tier. -/
def tierSubs (sublist : List SubscriptionHolder) (p : Nat) :
    List SubscriptionHolder :=
  sublist.filter (fun h => h.priority = p)

/-- What one wrapper goroutine sends on `resultsChannel` (nfqueue.go lines
294-301): the handler's result when it returns before the watchdog; on
timeout the synthesised `sessionRelease=true` result is written to the
per-invocation channel `c` instead, so nothing reaches `resultsChannel`. -/
def wrapperSend (outcomes : String → PluginOutcome)
    (h : SubscriptionHolder) : Option SubscriberResult :=
  match outcomes h.owner with
  | PluginOutcome.returns r => some { owner := h.owner, sessionRelease := r }
  | PluginOutcome.hangs => none

/-- The collection loop's effect (nfqueue.go lines 318-325): each received
result with the sessionRelease flag triggers `ReleaseSession`. -/
def applyResults (st : DispatchState) (ctid : Nat)
    (rs : List SubscriberResult) : DispatchState :=
  rs.foldl
    (fun st r => if r.sessionRelease then ReleaseSession st ctid r.owner else st)
    st

/-- Run one priority tier: spawn a wrapper per subscription at this priority
(each timed-out wrapper emits the counted error `nfqueue_plugin_timeout`),
then collect from `resultsChannel`.  Returns the state after applying the
received results, whether every wrapper of the tier delivered a result to
`resultsChannel` (otherwise the collection loop blocks forever), and the
tier's `hitcount`. -/
def runTier (outcomes : String → PluginOutcome)
    (sublist : List SubscriptionHolder) (p ctid : Nat) (st : DispatchState) :
    DispatchState × Bool × Nat :=
  let tier := tierSubs sublist p
  let timeouts := tier.filter (fun h => outcomes h.owner = PluginOutcome.hangs)
  let st :=
    { st with
      errorCounters :=
        st.errorCounters ++ timeouts.map (fun _ => "nfqueue_plugin_timeout") }
  let received := tier.filterMap (wrapperSend outcomes)
  (applyResults st ctid received, received.length = tier.length, tier.length)

/-- Observable outcome of one dispatcher invocation: a verdict returned to
the kernel, the collection loop blocking forever on `resultsChannel`, or the
`priority > 100` panic.  `iters` counts executed iterations of the priority
loop. -/
inductive DispatchResult where
  | verdict (v : Nat) (iters : Nat) (st : DispatchState)
  | blocked (iters : Nat) (st : DispatchState)
  | panicked (iters : Nat) (st : DispatchState)
deriving DecidableEq, Repr

/-- The dispatch-core state at the end of the invocation (for `blocked`, the
state once every received result of the blocking tier has been applied). -/
def DispatchResult.state : DispatchResult → DispatchState
  | DispatchResult.verdict _ _ st => st
  | DispatchResult.blocked _ st => st
  | DispatchResult.panicked _ st => st

/-- Loop-iteration count of the priority walk. -/
def DispatchResult.iters : DispatchResult → Nat
  | DispatchResult.verdict _ i _ => i
  | DispatchResult.blocked i _ => i
  | DispatchResult.panicked i _ => i

/-- Whether the invocation aborted via the priority-constraint panic. -/
def DispatchResult.isPanicked : DispatchResult → Bool
  | DispatchResult.panicked _ _ => true
  | _ => false

/-- Whether the invocation blocked forever on `resultsChannel`. -/
def DispatchResult.isBlocked : DispatchResult → Bool
  | DispatchResult.blocked _ _ => true
  | _ => false

/-- The priority loop of callSubscribers (nfqueue.go lines 270-333).
`budget` is the number of remaining loop iterations the `priority > 100`
check permits; the tier executed at `budget = b+1` is priority `100 - b`, so
the walk starts at `budget = 101` (priority 0).  Reaching `budget = 0` is
exactly the Go `priority++; if priority > 100` panic, which fires after the
tier body and before the loop condition is re-checked. -/
def walkAux (outcomes : String → PluginOutcome)
    (sublist : List SubscriptionHolder) (ctid subtotal : Nat) :
    Nat → Nat → Nat → DispatchState → DispatchResult
  | 0, _, iters, st =>
    DispatchResult.panicked iters
      { st with
        errorCounters := st.errorCounters ++ ["nfqueue_priority_constraint"] }
  | b + 1, subcount, iters, st =>
    let priority := 100 - b
    let out := runTier outcomes sublist priority ctid st
    let st' := out.1
    let iters' := iters + 1
    if ¬ out.2.1 then DispatchResult.blocked iters' st'
    else
      let subcount' := subcount + out.2.2
      if b = 0 then
        DispatchResult.panicked iters'
          { st' with
            errorCounters :=
              st'.errorCounters ++ ["nfqueue_priority_constraint"] }
      else if subcount' = subtotal then DispatchResult.verdict NfAccept iters' st'
      else walkAux outcomes sublist ctid subtotal b subcount' iters' st'

/-- callSubscribers (nfqueue.go lines 252-343): calls all the nfqueue
subscribers of the session's snapshot and returns the verdict.  With an empty
snapshot it writes `bypass_packetd=true` for `session.GetConntrackID()` and
accepts immediately. -/
def callSubscribers (outcomes : String → PluginOutcome) (ctid : Nat)
    (sess : Session) (st : DispatchState) : DispatchResult :=
  let sublist := MirrorNfqueueSubscriptions sess
  if sublist.length = 0 then
    DispatchResult.verdict NfAccept 0
      (addSessionEntry st sess.conntrackID "bypass_packetd" (DictValue.b true))
  else
    walkAux outcomes sublist ctid sublist.length 101 0 0 st

/-- The IPv4 or IPv6 layer content the dispatcher reads. -/
structure IPInfo where
  protocol : Nat
  src : IPAddr
  dst : IPAddr
deriving DecidableEq, Repr

/-- The TCP layer content the dispatcher reads. -/
structure TCPInfo where
  srcPort : Nat
  dstPort : Nat
  rst : Bool
  fin : Bool
deriving DecidableEq, Repr

/-- The UDP layer content the dispatcher reads. -/
structure UDPInfo where
  srcPort : Nat
  dstPort : Nat
deriving DecidableEq, Repr

/-- A parsed gopacket packet, restricted to the layers the dispatcher
inspects. -/
structure Packet where
  ip4 : Option IPInfo
  ip6 : Option IPInfo
  tcp : Option TCPInfo
  udp : Option UDPInfo
  payload : List Nat
deriving DecidableEq, Repr

/-- Tuple extraction of nfqueueCallback (nfqueue.go lines 86-126): protocol
and addresses from the IPv4 layer, else the IPv6 layer, else no tuple (the
packet is accepted); ports from the TCP layer and then the UDP layer. -/
def packetIPInfo (pkt : Packet) : Option IPInfo :=
  match pkt.ip4 with
  | some i => some i
  | none => pkt.ip6

/-- Builds the message tuple from the selected IP layer and the transport
layers. -/
def packetTuple (pkt : Packet) : Option Tuple :=
  (packetIPInfo pkt).map (fun i =>
    let t0 : Tuple :=
      { protocol := i.protocol
        clientAddress := i.src
        clientPort := 0
        serverAddress := i.dst
        serverPort := 0 }
    let t1 :=
      match pkt.tcp with
      | some tl => { t0 with clientPort := tl.srcPort, serverPort := tl.dstPort }
      | none => t0
    match pkt.udp with
    | some ul => { t1 with clientPort := ul.srcPort, serverPort := ul.dstPort }
    | none => t1)

/-- The counted-error log of the conntrack-id mismatch check (nfqueue.go
lines 191-194). -/
def mismatchCheck (st : DispatchState) (sess : Session) (ctid : Nat) :
    DispatchState :=
  if ¬ sess.conntrackID = ctid then
    { st with errorCounters := st.errorCounters ++ ["conntrack_id_mismatch"] }
  else st

/-- The session-object mutations of the tail of nfqueueCallback (nfqueue.go
lines 213-237): direction, interface attribution on new sessions and on
server-to-client packets with an unset server interface, and the accounting
counters. -/
def tailSession (sess : Session) (msgTuple : Tuple)
    (packetLength pmark now : Nat) (newSession : Bool) : Session :=
  let clientToServer :=
    msgTuple.clientAddress = sess.clientSideTuple.clientAddress
  let sess :=
    if newSession then
      { sess with
        clientInterfaceID := pmark.land 0x000000FF
        clientInterfaceType := (pmark.land 0x03000000) >>> 24 }
    else sess
  let sess :=
    if ¬ clientToServer ∧ sess.serverInterfaceID = 0 then
      { sess with
        serverInterfaceID := pmark.land 0x000000FF
        serverInterfaceType := (pmark.land 0x03000000) >>> 24 }
    else sess
  { sess with
    lastActivity := now
    packetCount := sess.packetCount + 1
    byteCount := sess.byteCount + packetLength
    eventCount := sess.eventCount + 1 }

/-- Common tail of nfqueueCallback (nfqueue.go lines 199-247): conntrack
reconciliation for new sessions, the session mutations of `tailSession`
(visible through the table's shared pointer), then callSubscribers. -/
def dispatchTail (outcomes : String → PluginOutcome) (st : DispatchState)
    (ctid : Nat) (sess : Session) (msgTuple : Tuple)
    (packetLength pmark now : Nat) (newSession : Bool) : DispatchResult :=
  let st := if newSession then removeConntrack st ctid else st
  let sess := tailSession sess msgTuple packetLength pmark now newSession
  let st := updateSession st ctid sess
  callSubscribers outcomes ctid sess st

/-- nfqueueCallback (nfqueue.go lines 76-248): the per-packet entry point.
Returns the verdict (or the blocked/panicked outcome of the subscriber
walk) together with the state. -/
def nfqueueCallback (outcomes : String → PluginOutcome) (st : DispatchState)
    (ctid family : Nat) (pkt : Packet) (packetLength pmark now : Nat) :
    DispatchResult :=
  match packetTuple pkt with
  | none => DispatchResult.verdict NfAccept 0 st
  | some msgTuple =>
    if msgTuple.clientAddress.isLoopback || msgTuple.serverAddress.isLoopback
    then DispatchResult.verdict NfAccept 0 st
    else if pmark.land 0x10000000 = 0 then
      match findSession st ctid with
      | none =>
        DispatchResult.verdict NfAccept 0
          (addSessionEntry st ctid "bypass_packetd" (DictValue.b true))
      | some sess0 =>
        let st := mismatchCheck st sess0 ctid
        dispatchTail outcomes st ctid sess0 msgTuple packetLength pmark now false
    else
      match findSession st ctid with
      | none =>
        let created := createSession st msgTuple family packetLength ctid now
        dispatchTail outcomes created.1 ctid created.2 msgTuple packetLength
          pmark now true
      | some sess0 =>
        if msgTuple = sess0.clientSideTuple then
          let st := mismatchCheck st sess0 ctid
          dispatchTail outcomes st ctid sess0 msgTuple packetLength pmark now
            false
        else
          let st := removeFromSessionTable st ctid
          let created := createSession st msgTuple family packetLength ctid now
          let st' := mismatchCheck created.1 created.2 ctid
          dispatchTail outcomes st' ctid created.2 msgTuple packetLength pmark
            now true

/-! ### The kernel ruleset (nftables provisioning script) -/

/-- Packet attributes read by the nftables rules of the provisioning
script. -/
structure NftPacket where
  ctStateNew : Bool
  ctStateInvalid : Bool
  ctStateUntracked : Bool
  ctMark : Nat
  mark : Nat
  ctId : Nat
  ctPackets : Nat
  srcLoopback : Bool
  dstLoopback : Bool
  srcAnycast : Bool
  dstAnycast : Bool
  srcBroadcast : Bool
  dstBroadcast : Bool
  srcMulticast : Bool
  dstMulticast : Bool
  udpDport : Option Nat
  tcpDport : Option Nat
deriving DecidableEq, Repr

/-- Effect of the packetd-queue chain on one packet. -/
structure QueueOutcome where
  queued : Bool
  mark : Nat
  flushed : Bool
deriving DecidableEq, Repr

/-- The packetd-queue chain of the provisioning script, rules in file order:
flush `sessions[ct id]` on `ct state new`; return on loopback, invalid or
untracked state, a true `bypass_packetd` dictionary entry, the `0x80000000`
conntrack-mark bit, non-unicast addresses, or `ct packets > 256`; set mark
bit `0x10000000` on `ct state new`; finally queue to userspace.
`bypassEntry` is whether `sessions[ct id].bypass_packetd == true` held
before the chain ran (the flush rule precedes the dictionary check). -/
def packetdQueue (bypassEntry : Bool) (p : NftPacket) : QueueOutcome :=
  let flushed := p.ctStateNew
  if p.srcLoopback || p.dstLoopback then
    { queued := false, mark := p.mark, flushed := flushed }
  else if p.ctStateInvalid || p.ctStateUntracked then
    { queued := false, mark := p.mark, flushed := flushed }
  else if bypassEntry && ! p.ctStateNew then
    { queued := false, mark := p.mark, flushed := flushed }
  else if p.ctMark.land 0x80000000 = 0x80000000 then
    { queued := false, mark := p.mark, flushed := flushed }
  else if p.srcAnycast || p.dstAnycast || p.srcBroadcast || p.dstBroadcast
      || p.srcMulticast || p.dstMulticast then
    { queued := false, mark := p.mark, flushed := flushed }
  else if p.ctPackets > 256 then
    { queued := false, mark := p.mark, flushed := flushed }
  else
    { queued := true
      mark := if p.ctStateNew then p.mark.lor 0x10000000 else p.mark
      flushed := flushed }

/-- The packetd-output chain: on every new locally generated flow set
conntrack-mark bit `0x80000000`, then goto packetd-queue.  Returns the
packet after the chain together with the queue-chain outcome. -/
def packetdOutput (bypassEntry : Bool) (p : NftPacket) :
    NftPacket × QueueOutcome :=
  let p' :=
    if p.ctStateNew then { p with ctMark := p.ctMark.lor 0x80000000 } else p
  (p', packetdQueue bypassEntry p')

/-- The packetd-input chain: return for DNS on port 53 (UDP or TCP),
otherwise set conntrack-mark bit `0x80000000` on every new locally destined
flow. -/
def packetdInput (p : NftPacket) : NftPacket :=
  if p.udpDport = some 53 then p
  else if p.tcpDport = some 53 then p
  else if p.ctStateNew then { p with ctMark := p.ctMark.lor 0x80000000 }
  else p

/-- One kernel-mediated packet delivery: the packet traverses the
packetd-queue chain (which may flush the dictionary entry and set the
new-packet mark bit); if queued, the dispatcher's nfqueueCallback runs on the
resulting mark.  The ct id of the nft rules and the ctid handed to the
callback are the same kernel conntrack id. -/
def kernelDeliver (outcomes : String → PluginOutcome) (st : DispatchState)
    (family : Nat) (pkt : Packet) (packetLength : Nat) (np : NftPacket)
    (now : Nat) : DispatchResult :=
  let q := packetdQueue (decide (bypassSet st np.ctId)) np
  let st := if q.flushed then flushSessionDict st np.ctId else st
  if q.queued then
    nfqueueCallback outcomes st np.ctId family pkt packetLength q.mark now
  else DispatchResult.verdict NfAccept 0 st

/-! ### The geoip plugin handler -/

/-- Country classification of one address (geoip.go lines 92-134): start at
`XU` (unknown), use `XL` for private blocks, else the database lookup when it
succeeds with a nonempty ISO code.  `dbLookup` returns `none` when the
database is absent or the lookup fails or yields an empty code. -/
def geoipCountry (dbLookup : IPAddr → Option String)
    (isPrivate : IPAddr → Bool) (addr : Option IPAddr) : String :=
  match addr with
  | none => "XU"
  | some a => if isPrivate a then "XL" else (dbLookup a).getD "XU"

/-- The slice of NfqueueMessage the geoip handler reads: the table key under
which `mess.Session` is stored, and the IP layers. -/
structure GeoipMessage where
  sessionKey : Nat
  ip4 : Option IPInfo
  ip6 : Option IPInfo
deriving Repr

/-- Store one attachment under the session of `key` (Session.PutAttachment
through the shared pointer). -/
def putAttachment (st : DispatchState) (key : Nat) (name value : String) :
    DispatchState :=
  match findSession st key with
  | none => st
  | some sess =>
    updateSession st key
      { sess with
        attachments :=
          (name, value) :: sess.attachments.filter (fun p => ¬ p.1 = name) }

/-- geoip.PluginNfqueueHandler (geoip.go lines 78-147): releases its own
subscription immediately via a direct ReleaseSession call, then for new
sessions computes the client/server countries, writes them to the
dictionary and the session attachments, and returns a zero-valued
NfqueueResult (SessionRelease=false) in every case. -/
def geoipNfqueueHandler (dbLookup : IPAddr → Option String)
    (isPrivate : IPAddr → Bool) (st : DispatchState) (mess : GeoipMessage)
    (ctid : Nat) (newSession : Bool) : DispatchState × NfqueueResult :=
  let st := ReleaseSession st mess.sessionKey "geoip"
  if ! newSession then (st, { sessionRelease := false })
  else
    let src :=
      match mess.ip4 with
      | some i => some i.src
      | none => mess.ip6.map (fun i => i.src)
    let dst :=
      match mess.ip4 with
      | some i => some i.dst
      | none => mess.ip6.map (fun i => i.dst)
    let clientCountry := geoipCountry dbLookup isPrivate src
    let serverCountry := geoipCountry dbLookup isPrivate dst
    let st := addSessionEntry st ctid "client_country" (DictValue.s clientCountry)
    let st := addSessionEntry st ctid "server_country" (DictValue.s serverCountry)
    let st := putAttachment st mess.sessionKey "client_country" clientCountry
    let st := putAttachment st mess.sessionKey "server_country" serverCountry
    (st, { sessionRelease := false })

/-! ### Association-list lemmas -/

theorem lookupTable_cons {κ α : Type} [DecidableEq κ] (p : κ × α)
    (l : List (κ × α)) (k : κ) :
    lookupTable (p :: l) k = if p.1 = k then some p.2 else lookupTable l k := by
  by_cases h : p.1 = k
  · simp [lookupTable, List.find?_cons_of_pos, h]
  · simp only [lookupTable, if_neg h]
    rw [List.find?_cons_of_neg]
    simp [h]

theorem lookupTable_filterNe {κ α : Type} [DecidableEq κ] (l : List (κ × α))
    (k k' : κ) (h : ¬ k' = k) :
    lookupTable (l.filter (fun p => ¬ p.1 = k)) k' = lookupTable l k' := by
  induction l with
  | nil => rfl
  | cons p l ih =>
    by_cases hk : p.1 = k
    · have hne : ¬ p.1 = k' := fun hh => h (hh.symm.trans hk)
      rw [List.filter_cons, if_neg (by simp [hk]), ih, lookupTable_cons,
        if_neg hne]
    · rw [List.filter_cons, if_pos (by simp [hk]), lookupTable_cons,
        lookupTable_cons, ih]

theorem lookupTable_insert_self {κ α : Type} [DecidableEq κ]
    (l : List (κ × α)) (k : κ) (v : α) :
    lookupTable (insertTable l k v) k = some v := by
  simp [insertTable, lookupTable_cons]

theorem lookupTable_insert_ne {κ α : Type} [DecidableEq κ] (l : List (κ × α))
    (k k' : κ) (v : α) (h : ¬ k' = k) :
    lookupTable (insertTable l k v) k' = lookupTable l k' := by
  have hkk : ¬ (k : κ) = k' := fun hh => h hh.symm
  rw [insertTable, lookupTable_cons, if_neg hkk]
  exact lookupTable_filterNe l k k' h

theorem lookupTable_remove_self {κ α : Type} [DecidableEq κ]
    (l : List (κ × α)) (k : κ) :
    lookupTable (removeTable l k) k = none := by
  cases hf : (removeTable l k).find? (fun p => p.1 = k) with
  | none => simp [lookupTable, hf]
  | some q =>
    have hq := List.find?_some hf
    have hmem := List.mem_of_find?_eq_some hf
    rw [removeTable] at hmem
    have hq2 := (List.mem_filter.mp hmem).2
    simp at hq hq2
    exact absurd hq hq2

theorem lookupTable_remove_ne {κ α : Type} [DecidableEq κ] (l : List (κ × α))
    (k k' : κ) (h : ¬ k' = k) :
    lookupTable (removeTable l k) k' = lookupTable l k' :=
  lookupTable_filterNe l k k' h

theorem lookupTable_update_self {κ α : Type} [DecidableEq κ]
    (l : List (κ × α)) (k : κ) (v : α) :
    lookupTable (updateEntry l k v) k = (lookupTable l k).map (fun _ => v) := by
  induction l with
  | nil => rfl
  | cons p l ih =>
    rw [updateEntry, List.map_cons]
    by_cases hk : p.1 = k
    · rw [if_pos hk, lookupTable_cons, lookupTable_cons, if_pos hk]
      simp
    · rw [if_neg hk, lookupTable_cons, lookupTable_cons, if_neg hk, if_neg hk]
      rw [updateEntry] at ih
      exact ih

theorem lookupTable_update_ne {κ α : Type} [DecidableEq κ] (l : List (κ × α))
    (k k' : κ) (v : α) (h : ¬ k' = k) :
    lookupTable (updateEntry l k v) k' = lookupTable l k' := by
  induction l with
  | nil => rfl
  | cons p l ih =>
    rw [updateEntry, List.map_cons]
    rw [updateEntry] at ih
    by_cases hk : p.1 = k
    · have hkk : ¬ (k : κ) = k' := fun hh => h hh.symm
      have hne : ¬ p.1 = k' := fun hh => h (hh.symm.trans hk)
      rw [if_pos hk, lookupTable_cons, lookupTable_cons, if_neg hkk, if_neg hne,
        ih]
    · rw [if_neg hk, lookupTable_cons, lookupTable_cons, ih]

/-! ### State-component projection lemmas -/

@[simp] theorem updateSession_conntrackTable (st : DispatchState) (k : Nat)
    (s : Session) : (updateSession st k s).conntrackTable = st.conntrackTable :=
  rfl

@[simp] theorem updateSession_dictSessions (st : DispatchState) (k : Nat)
    (s : Session) : (updateSession st k s).dictSessions = st.dictSessions := rfl

@[simp] theorem updateSession_errorCounters (st : DispatchState) (k : Nat)
    (s : Session) : (updateSession st k s).errorCounters = st.errorCounters :=
  rfl

@[simp] theorem updateSession_nextSessionID (st : DispatchState) (k : Nat)
    (s : Session) : (updateSession st k s).nextSessionID = st.nextSessionID :=
  rfl

@[simp] theorem updateSession_registry (st : DispatchState) (k : Nat)
    (s : Session) : (updateSession st k s).registry = st.registry := rfl

@[simp] theorem addSessionEntry_sessionTable (st : DispatchState) (c : Nat)
    (f : String) (v : DictValue) :
    (addSessionEntry st c f v).sessionTable = st.sessionTable := rfl

@[simp] theorem addSessionEntry_conntrackTable (st : DispatchState) (c : Nat)
    (f : String) (v : DictValue) :
    (addSessionEntry st c f v).conntrackTable = st.conntrackTable := rfl

@[simp] theorem addSessionEntry_errorCounters (st : DispatchState) (c : Nat)
    (f : String) (v : DictValue) :
    (addSessionEntry st c f v).errorCounters = st.errorCounters := rfl

@[simp] theorem addSessionEntry_nextSessionID (st : DispatchState) (c : Nat)
    (f : String) (v : DictValue) :
    (addSessionEntry st c f v).nextSessionID = st.nextSessionID := rfl

@[simp] theorem addSessionEntry_registry (st : DispatchState) (c : Nat)
    (f : String) (v : DictValue) :
    (addSessionEntry st c f v).registry = st.registry := rfl

@[simp] theorem findSession_addSessionEntry (st : DispatchState) (c : Nat)
    (f : String) (v : DictValue) (k : Nat) :
    findSession (addSessionEntry st c f v) k = findSession st k := rfl

@[simp] theorem findSession_removeConntrack (st : DispatchState) (c k : Nat) :
    findSession (removeConntrack st c) k = findSession st k := rfl

@[simp] theorem lookupDictField_updateSession (st : DispatchState) (k : Nat)
    (s : Session) (c : Nat) (f : String) :
    lookupDictField (updateSession st k s) c f = lookupDictField st c f := rfl

@[simp] theorem lookupDictField_removeConntrack (st : DispatchState)
    (k c : Nat) (f : String) :
    lookupDictField (removeConntrack st k) c f = lookupDictField st c f := rfl

@[simp] theorem lookupDictField_insertSessionTable (st : DispatchState)
    (k : Nat) (s : Session) (c : Nat) (f : String) :
    lookupDictField (insertSessionTable st k s) c f = lookupDictField st c f :=
  rfl

@[simp] theorem lookupDictField_removeFromSessionTable (st : DispatchState)
    (k c : Nat) (f : String) :
    lookupDictField (removeFromSessionTable st k) c f = lookupDictField st c f :=
  rfl

@[simp] theorem findSession_mismatchCheck (st : DispatchState) (s : Session)
    (c k : Nat) : findSession (mismatchCheck st s c) k = findSession st k := by
  unfold mismatchCheck
  split <;> rfl

@[simp] theorem lookupDictField_mismatchCheck (st : DispatchState)
    (s : Session) (c c' : Nat) (f : String) :
    lookupDictField (mismatchCheck st s c) c' f = lookupDictField st c' f := by
  unfold mismatchCheck
  split <;> rfl

@[simp] theorem mismatchCheck_conntrackTable (st : DispatchState) (s : Session)
    (c : Nat) : (mismatchCheck st s c).conntrackTable = st.conntrackTable := by
  unfold mismatchCheck
  split <;> rfl

@[simp] theorem mismatchCheck_nextSessionID (st : DispatchState) (s : Session)
    (c : Nat) : (mismatchCheck st s c).nextSessionID = st.nextSessionID := by
  unfold mismatchCheck
  split <;> rfl

@[simp] theorem mismatchCheck_registry (st : DispatchState) (s : Session)
    (c : Nat) : (mismatchCheck st s c).registry = st.registry := by
  unfold mismatchCheck
  split <;> rfl

/-! ### Dictionary lemmas -/

theorem lookupDictField_add_self (st : DispatchState) (c : Nat) (f : String)
    (v : DictValue) : lookupDictField (addSessionEntry st c f v) c f = some v := by
  unfold lookupDictField addSessionEntry
  simp [lookupTable_insert_self]

theorem lookupDictField_add_ne_ctid (st : DispatchState) (c c' : Nat)
    (f f' : String) (v : DictValue) (h : ¬ c' = c) :
    lookupDictField (addSessionEntry st c f v) c' f' = lookupDictField st c' f' := by
  unfold lookupDictField addSessionEntry
  simp [lookupTable_insert_ne _ _ _ _ h]

theorem lookupDictField_add_ne_field (st : DispatchState) (c : Nat)
    (f f' : String) (v : DictValue) (h : ¬ f' = f) :
    lookupDictField (addSessionEntry st c f v) c f' = lookupDictField st c f' := by
  unfold lookupDictField addSessionEntry
  simp [lookupTable_insert_self, lookupTable_insert_ne _ _ _ _ h]
  cases hc : lookupTable st.dictSessions c <;> simp [hc, lookupTable]

theorem bypassSet_addSessionEntry_bypass (st : DispatchState) (c : Nat) :
    bypassSet (addSessionEntry st c "bypass_packetd" (DictValue.b true)) c := by
  unfold bypassSet
  exact lookupDictField_add_self st c _ _

theorem bypassSet_addSessionEntry_iff (st : DispatchState) (c c' : Nat)
    (f : String) (v : DictValue) (h : ¬ (c' = c ∧ f = "bypass_packetd" ∧ v = DictValue.b true)) :
    bypassSet (addSessionEntry st c f v) c' ↔
      (bypassSet st c' ∧ ¬ (c' = c ∧ f = "bypass_packetd")) ∨
      (c' = c ∧ f = "bypass_packetd" ∧ v = DictValue.b true) := by
  unfold bypassSet
  by_cases hc : c' = c
  · subst hc
    by_cases hf : (("bypass_packetd" : String) = f)
    · subst hf
      rw [lookupDictField_add_self]
      constructor
      · intro hv
        exact absurd ⟨rfl, rfl, Option.some.inj hv⟩ h
      · rintro (⟨_, hne⟩ | ⟨_, _, hv⟩)
        · exact absurd ⟨rfl, rfl⟩ hne
        · rw [hv]
    · rw [lookupDictField_add_ne_field st c' f _ v hf]
      constructor
      · intro hv
        exact Or.inl ⟨hv, fun hh => hf hh.2.symm⟩
      · rintro (⟨hv, _⟩ | ⟨_, hf2, _⟩)
        · exact hv
        · exact absurd hf2.symm hf
  · rw [lookupDictField_add_ne_ctid st c c' f _ v hc]
    constructor
    · intro hv
      exact Or.inl ⟨hv, fun hh => hc hh.1⟩
    · rintro (⟨hv, _⟩ | ⟨hc2, _⟩)
      · exact hv
      · exact absurd hc2 hc

/-! ### Frame and invariant definitions -/

/-- A session with its live subscription set erased: exactly the fields the
subscriber walk never modifies. -/
def sessSansSubs (s : Session) : Session := { s with subscriptions := [] }

@[simp] theorem sessSansSubs_update_subs (s : Session)
    (x : List SubscriptionHolder) :
    sessSansSubs { s with subscriptions := x } = sessSansSubs s := rfl

/-- Dictionary-field monotonicity: every `sessions` field present in the
dictionary stays present (values may be overwritten, keys never deleted). -/
def DictMono (st st' : DispatchState) : Prop :=
  ∀ c f, (lookupDictField st c f).isSome = true →
    (lookupDictField st' c f).isSome = true

/-- Everything the subscriber walk leaves untouched: the conntrack table,
the id allocator, the registry, every session up to its subscription set,
and dictionary-key presence. -/
def FramePreserved (st st' : DispatchState) : Prop :=
  st'.conntrackTable = st.conntrackTable ∧
  st'.nextSessionID = st.nextSessionID ∧
  st'.registry = st.registry ∧
  (∀ k, (findSession st' k).map sessSansSubs =
    (findSession st k).map sessSansSubs) ∧
  DictMono st st'

theorem FramePreserved.refl (st : DispatchState) : FramePreserved st st :=
  ⟨rfl, rfl, rfl, fun _ => rfl, fun _ _ h => h⟩

theorem FramePreserved.trans {s1 s2 s3 : DispatchState}
    (h1 : FramePreserved s1 s2) (h2 : FramePreserved s2 s3) :
    FramePreserved s1 s3 := by
  obtain ⟨a1, b1, c1, d1, e1⟩ := h1
  obtain ⟨a2, b2, c2, d2, e2⟩ := h2
  exact ⟨a2.trans a1, b2.trans b1, c2.trans c1,
    fun k => (d2 k).trans (d1 k), fun c f h => e2 c f (e1 c f h)⟩

/-- Every session stored in the table is keyed by its own conntrack id. -/
def KeysConsistent (st : DispatchState) : Prop :=
  ∀ k s, findSession st k = some s → s.conntrackID = k

/-- The bypass invariant: a true `bypass_packetd` dictionary entry for a
ctid means the session at that ctid, if any, has no subscriptions. -/
def BypassInv (st : DispatchState) : Prop :=
  ∀ c s, bypassSet st c → findSession st c = some s → s.subscriptions = []

/-- The reachable-state invariant of the dispatch core. -/
def StateInv (st : DispatchState) : Prop := KeysConsistent st ∧ BypassInv st

/-! ### Point lemmas on the primitive state operations -/

theorem findSession_updateSession_self (st : DispatchState) (c : Nat)
    (s' : Session) :
    findSession (updateSession st c s') c =
      (findSession st c).map (fun _ => s') :=
  lookupTable_update_self _ _ _

theorem findSession_updateSession_ne (st : DispatchState) (c k : Nat)
    (s' : Session) (h : ¬ k = c) :
    findSession (updateSession st c s') k = findSession st k :=
  lookupTable_update_ne _ _ _ _ h

theorem findSession_insertSessionTable_self (st : DispatchState) (c : Nat)
    (s : Session) : findSession (insertSessionTable st c s) c = some s :=
  lookupTable_insert_self _ _ _

theorem findSession_insertSessionTable_ne (st : DispatchState) (c k : Nat)
    (s : Session) (h : ¬ k = c) :
    findSession (insertSessionTable st c s) k = findSession st k :=
  lookupTable_insert_ne _ _ _ _ h

theorem findSession_removeFromSessionTable_self (st : DispatchState)
    (c : Nat) : findSession (removeFromSessionTable st c) c = none :=
  lookupTable_remove_self _ _

theorem findSession_removeFromSessionTable_ne (st : DispatchState) (c k : Nat)
    (h : ¬ k = c) :
    findSession (removeFromSessionTable st c) k = findSession st k :=
  lookupTable_remove_ne _ _ _ h

theorem lookupDictField_flush_self (st : DispatchState) (c : Nat)
    (f : String) : lookupDictField (flushSessionDict st c) c f = none := by
  unfold lookupDictField flushSessionDict
  simp [lookupTable_remove_self]

theorem lookupDictField_flush_ne (st : DispatchState) (c c' : Nat)
    (f : String) (h : ¬ c' = c) :
    lookupDictField (flushSessionDict st c) c' f = lookupDictField st c' f := by
  unfold lookupDictField flushSessionDict
  rw [lookupTable_remove_ne _ _ _ h]

theorem bypassSet_add_bypass_iff (st : DispatchState) (c c' : Nat) :
    bypassSet (addSessionEntry st c "bypass_packetd" (DictValue.b true)) c' ↔
      (c' = c ∨ bypassSet st c') := by
  by_cases hc : c' = c
  · subst hc
    unfold bypassSet
    rw [lookupDictField_add_self]
    simp
  · unfold bypassSet
    rw [lookupDictField_add_ne_ctid st c c' _ _ _ hc]
    simp [hc, bypassSet]

/-! ### Invariant preservation for the primitive operations -/

theorem StateInv_setErrors (st : DispatchState) (e : List String)
    (h : StateInv st) : StateInv { st with errorCounters := e } :=
  ⟨fun k s hf => h.1 k s hf, fun c s hb hf => h.2 c s hb hf⟩

theorem StateInv_mismatchCheck (st : DispatchState) (sess : Session) (c : Nat)
    (h : StateInv st) : StateInv (mismatchCheck st sess c) := by
  unfold mismatchCheck
  split
  · exact StateInv_setErrors st _ h
  · exact h

theorem StateInv_flushSessionDict (st : DispatchState) (c : Nat)
    (h : StateInv st) : StateInv (flushSessionDict st c) := by
  refine ⟨fun k s hf => h.1 k s hf, fun c' s hb hf => ?_⟩
  by_cases hc : c' = c
  · subst hc
    unfold bypassSet at hb
    rw [lookupDictField_flush_self] at hb
    exact absurd hb (by simp)
  · have hb' : bypassSet st c' := by
      unfold bypassSet at hb ⊢
      rwa [lookupDictField_flush_ne st c c' _ hc] at hb
    exact h.2 c' s hb' hf

theorem StateInv_addBypass_none (st : DispatchState) (c : Nat)
    (h : StateInv st) (hfind : findSession st c = none) :
    StateInv (addSessionEntry st c "bypass_packetd" (DictValue.b true)) := by
  refine ⟨fun k s hf => h.1 k s hf, fun c' s hb hf => ?_⟩
  rw [findSession_addSessionEntry] at hf
  rcases (bypassSet_add_bypass_iff st c c').mp hb with hcc | hb'
  · subst hcc
    rw [hfind] at hf
    exact absurd hf (by simp)
  · exact h.2 c' s hb' hf

theorem StateInv_addBypass_noSubs (st : DispatchState) (c : Nat)
    (sess : Session) (h : StateInv st) (hfind : findSession st c = some sess)
    (hsubs : sess.subscriptions = []) :
    StateInv (addSessionEntry st c "bypass_packetd" (DictValue.b true)) := by
  refine ⟨fun k s hf => h.1 k s hf, fun c' s hb hf => ?_⟩
  rw [findSession_addSessionEntry] at hf
  rcases (bypassSet_add_bypass_iff st c c').mp hb with hcc | hb'
  · subst hcc
    rw [hfind] at hf
    rw [← Option.some.inj hf]
    exact hsubs
  · exact h.2 c' s hb' hf

theorem DictMono_addSessionEntry (st : DispatchState) (c : Nat) (f : String)
    (v : DictValue) : DictMono st (addSessionEntry st c f v) := by
  intro c' f' hsome
  by_cases hc : c' = c
  · subst hc
    by_cases hf : f' = f
    · subst hf
      rw [lookupDictField_add_self]
      rfl
    · rwa [lookupDictField_add_ne_field st c' f f' v hf]
  · rwa [lookupDictField_add_ne_ctid st c c' f f' v hc]

theorem FramePreserved_addSessionEntry (st : DispatchState) (c : Nat)
    (f : String) (v : DictValue) :
    FramePreserved st (addSessionEntry st c f v) :=
  ⟨rfl, rfl, rfl, fun _ => rfl, DictMono_addSessionEntry st c f v⟩

theorem FramePreserved_setErrors (st : DispatchState) (e : List String) :
    FramePreserved st { st with errorCounters := e } :=
  ⟨rfl, rfl, rfl, fun _ => rfl, fun _ _ h => h⟩

/-! ### ReleaseSession lemmas -/

theorem ReleaseSession_noop_of_empty (st : DispatchState) (c : Nat)
    (o : String) (sess : Session) (hfind : findSession st c = some sess)
    (hsubs : sess.subscriptions = []) : ReleaseSession st c o = st := by
  unfold ReleaseSession
  rw [hfind]
  simp [hsubs]

theorem ReleaseSession_frame (st : DispatchState) (c : Nat) (o : String) :
    FramePreserved st (ReleaseSession st c o) := by
  unfold ReleaseSession
  cases hfind : findSession st c with
  | none => exact FramePreserved.refl st
  | some sess =>
    by_cases hlen : sess.subscriptions.length = 0
    · simp only [if_pos hlen]
      exact FramePreserved.refl st
    · simp only [if_neg hlen]
      have hup : FramePreserved st
          (updateSession st c
            { sess with
              subscriptions :=
                sess.subscriptions.filter (fun h => ¬ h.owner = o) }) := by
        refine ⟨rfl, rfl, rfl, fun k => ?_, fun _ _ h => h⟩
        by_cases hk : k = c
        · subst hk
          rw [findSession_updateSession_self, hfind]
          rfl
        · rw [findSession_updateSession_ne st c k _ hk]
      split
      · exact hup.trans (FramePreserved_addSessionEntry _ _ _ _)
      · exact hup

theorem StateInv_ReleaseSession (st : DispatchState) (c : Nat) (o : String)
    (h : StateInv st) : StateInv (ReleaseSession st c o) := by
  unfold ReleaseSession
  cases hfind : findSession st c with
  | none => exact h
  | some sess =>
    by_cases hlen : sess.subscriptions.length = 0
    · simp only [if_pos hlen]
      exact h
    · simp only [if_neg hlen]
      have hcid : sess.conntrackID = c := h.1 c sess hfind
      have hupKeys : KeysConsistent
          (updateSession st c
            { sess with
              subscriptions :=
                sess.subscriptions.filter (fun h => ¬ h.owner = o) }) := by
        intro k s hf
        by_cases hk : k = c
        · subst hk
          rw [findSession_updateSession_self, hfind] at hf
          rw [← Option.some.inj hf]
          exact hcid
        · rw [findSession_updateSession_ne st c k _ hk] at hf
          exact h.1 k s hf
      split
      · -- the filtered set is empty: the bypass write happens
        rename_i hz
        refine ⟨fun k s hf => hupKeys k s hf, fun c' s hb hf => ?_⟩
        rw [findSession_addSessionEntry] at hf
        rw [hcid] at hb
        rcases (bypassSet_add_bypass_iff _ c c').mp hb with hcc | hb'
        · subst hcc
          rw [findSession_updateSession_self, hfind] at hf
          rw [← Option.some.inj hf]
          exact List.length_eq_zero.mp hz
        · by_cases hk : c' = c
          · subst hk
            rw [findSession_updateSession_self, hfind] at hf
            rw [← Option.some.inj hf]
            exact List.length_eq_zero.mp hz
          · rw [findSession_updateSession_ne st c c' _ hk] at hf
            exact h.2 c' s hb' hf
      · -- subscriptions remain: no dictionary write
        refine ⟨fun k s hf => hupKeys k s hf, fun c' s hb hf => ?_⟩
        have hb' : bypassSet st c' := hb
        by_cases hk : c' = c
        · subst hk
          have := h.2 c' sess hb' hfind
          exact absurd (by rw [this]; rfl) hlen
        · rw [findSession_updateSession_ne st c c' _ hk] at hf
          exact h.2 c' s hb' hf

/-- The subscriptions of the session at the released key after
ReleaseSession: unchanged when absent or already empty, otherwise the
owner's entries are deleted. -/
theorem ReleaseSession_subs (st : DispatchState) (c : Nat) (o : String)
    (sess : Session) (hfind : findSession st c = some sess)
    (hlen : ¬ sess.subscriptions.length = 0) :
    (findSession (ReleaseSession st c o) c).map Session.subscriptions =
      some (sess.subscriptions.filter (fun h => ¬ h.owner = o)) := by
  unfold ReleaseSession
  rw [hfind]
  simp only [if_neg hlen]
  split
  · rw [findSession_addSessionEntry, findSession_updateSession_self, hfind]
    rfl
  · rw [findSession_updateSession_self, hfind]
    rfl

/-- ReleaseSession performs the bypass write exactly on the transition from
a non-empty to an empty subscription set. -/
theorem ReleaseSession_dict_unchanged (st : DispatchState) (c : Nat)
    (o : String) (sess : Session) (hfind : findSession st c = some sess)
    (hne : ¬ (sess.subscriptions.filter (fun h => ¬ h.owner = o)).length = 0) :
    (ReleaseSession st c o).dictSessions = st.dictSessions := by
  unfold ReleaseSession
  rw [hfind]
  by_cases hlen : sess.subscriptions.length = 0
  · simp only [if_pos hlen]
  · simp only [if_neg hlen, if_neg hne]
    rfl

theorem ReleaseSession_writes_bypass (st : DispatchState) (c : Nat)
    (o : String) (sess : Session) (hfind : findSession st c = some sess)
    (hlen : ¬ sess.subscriptions.length = 0)
    (hz : (sess.subscriptions.filter (fun h => ¬ h.owner = o)).length = 0) :
    bypassSet (ReleaseSession st c o) sess.conntrackID := by
  unfold ReleaseSession
  rw [hfind]
  simp only [if_neg hlen, if_pos hz]
  exact bypassSet_addSessionEntry_bypass _ _

/-! ### Fold, tier and walk lemmas -/

theorem StateInv_applyResults (c : Nat) (rs : List SubscriberResult)
    (st : DispatchState) (h : StateInv st) :
    StateInv (applyResults st c rs) := by
  induction rs generalizing st with
  | nil => exact h
  | cons r rs ih =>
    rw [applyResults, List.foldl_cons]
    by_cases hr : r.sessionRelease = true
    · simp only [hr, if_pos rfl]
      exact ih _ (StateInv_ReleaseSession st c r.owner h)
    · have : r.sessionRelease = false := by
        cases hb : r.sessionRelease
        · rfl
        · exact absurd hb hr
      simp only [this]
      exact ih _ h

theorem FramePreserved_applyResults (c : Nat) (rs : List SubscriberResult)
    (st : DispatchState) : FramePreserved st (applyResults st c rs) := by
  induction rs generalizing st with
  | nil => exact FramePreserved.refl st
  | cons r rs ih =>
    rw [applyResults, List.foldl_cons]
    by_cases hr : r.sessionRelease = true
    · simp only [hr, if_pos rfl]
      exact (ReleaseSession_frame st c r.owner).trans (ih _)
    · have : r.sessionRelease = false := by
        cases hb : r.sessionRelease
        · rfl
        · exact absurd hb hr
      simp only [this]
      exact ih _

theorem StateInv_runTier (o : String → PluginOutcome)
    (sl : List SubscriptionHolder) (p c : Nat) (st : DispatchState)
    (h : StateInv st) : StateInv (runTier o sl p c st).1 := by
  unfold runTier
  exact StateInv_applyResults c _ _ (StateInv_setErrors st _ h)

theorem FramePreserved_runTier (o : String → PluginOutcome)
    (sl : List SubscriptionHolder) (p c : Nat) (st : DispatchState) :
    FramePreserved st (runTier o sl p c st).1 := by
  unfold runTier
  exact (FramePreserved_setErrors st _).trans (FramePreserved_applyResults c _ _)

theorem StateInv_walkAux (o : String → PluginOutcome)
    (sl : List SubscriptionHolder) (c t : Nat) :
    ∀ (budget subcount iters : Nat) (st : DispatchState), StateInv st →
      StateInv (walkAux o sl c t budget subcount iters st).state := by
  intro budget
  induction budget with
  | zero =>
    intro subcount iters st h
    exact StateInv_setErrors st _ h
  | succ b ih =>
    intro subcount iters st h
    rw [walkAux]
    have h1 := StateInv_runTier o sl (100 - b) c st h
    split
    · exact h1
    · split
      · exact StateInv_setErrors _ _ h1
      · dsimp only
        split
        · exact h1
        · exact ih _ _ _ h1

theorem FramePreserved_walkAux (o : String → PluginOutcome)
    (sl : List SubscriptionHolder) (c t : Nat) :
    ∀ (budget subcount iters : Nat) (st : DispatchState),
      FramePreserved st (walkAux o sl c t budget subcount iters st).state := by
  intro budget
  induction budget with
  | zero =>
    intro subcount iters st
    exact FramePreserved_setErrors st _
  | succ b ih =>
    intro subcount iters st
    rw [walkAux]
    have h1 := FramePreserved_runTier o sl (100 - b) c st
    split
    · exact h1
    · split
      · exact h1.trans (FramePreserved_setErrors _ _)
      · dsimp only
        split
        · exact h1
        · exact h1.trans (ih _ _ _)

theorem walkAux_verdict_accept (o : String → PluginOutcome)
    (sl : List SubscriptionHolder) (c t : Nat) :
    ∀ (budget subcount iters : Nat) (st : DispatchState) (v i : Nat)
      (st' : DispatchState),
      walkAux o sl c t budget subcount iters st =
        DispatchResult.verdict v i st' → v = NfAccept := by
  intro budget
  induction budget with
  | zero =>
    intro subcount iters st v i st' heq
    rw [walkAux] at heq
    exact absurd heq (by simp)
  | succ b ih =>
    intro subcount iters st v i st' heq
    rw [walkAux] at heq
    split at heq
    · exact absurd heq (by simp)
    · split at heq
      · exact absurd heq (by simp)
      · dsimp only at heq
        split at heq
        · cases heq
          rfl
        · exact ih _ _ _ _ _ _ heq

theorem walkAux_iters_le (o : String → PluginOutcome)
    (sl : List SubscriptionHolder) (c t : Nat) :
    ∀ (budget subcount iters : Nat) (st : DispatchState),
      (walkAux o sl c t budget subcount iters st).iters ≤ iters + budget := by
  intro budget
  induction budget with
  | zero =>
    intro subcount iters st
    rw [walkAux]
    simp [DispatchResult.iters]
  | succ b ih =>
    intro subcount iters st
    rw [walkAux]
    split
    · simp only [DispatchResult.iters]
      omega
    · split
      · simp only [DispatchResult.iters]
        omega
      · dsimp only
        split
        · simp only [DispatchResult.iters]
          omega
        · exact le_trans (ih _ _ _) (by omega)

/-- Number of subscriptions strictly below a priority. -/
def countBelow (sl : List SubscriptionHolder) (p : Nat) : Nat :=
  sl.countP (fun h => h.priority < p)

theorem countBelow_zero (sl : List SubscriptionHolder) : countBelow sl 0 = 0 := by
  induction sl with
  | nil => rfl
  | cons a l ih => simp [countBelow, List.countP_cons] at ih ⊢

theorem countBelow_succ (sl : List SubscriptionHolder) (p : Nat) :
    countBelow sl (p + 1) = countBelow sl p + (tierSubs sl p).length := by
  induction sl with
  | nil => rfl
  | cons a l ih =>
    simp only [countBelow, tierSubs, List.countP_cons, List.filter_cons] at ih ⊢
    by_cases h1 : a.priority < p + 1 <;> by_cases h2 : a.priority < p <;>
      by_cases h3 : a.priority = p <;>
      simp [h1, h2, h3, countBelow, tierSubs] at ih ⊢ <;> omega

theorem countBelow_all (sl : List SubscriptionHolder)
    (hall : ∀ h ∈ sl, h.priority < 100) : countBelow sl 100 = sl.length :=
  List.countP_eq_length.mpr (fun a ha => by simpa using hall a ha)

theorem walkAux_no_panic (o : String → PluginOutcome)
    (sl : List SubscriptionHolder) (c : Nat)
    (hall : ∀ h ∈ sl, h.priority < 100) :
    ∀ (b : Nat), b + 1 ≤ 101 → 1 ≤ b →
      ∀ (subcount iters : Nat) (st : DispatchState),
      subcount = countBelow sl (100 - b) →
      ¬ (walkAux o sl c sl.length (b + 1) subcount iters st).isPanicked = true ∧
      (walkAux o sl c sl.length (b + 1) subcount iters st).iters ≤ iters + b := by
  intro b
  induction b using Nat.strong_induction_on with
  | _ b ih =>
    intro hb101 hb1 subcount iters st hsub
    rw [walkAux]
    split
    · constructor
      · simp [DispatchResult.isPanicked]
      · simp only [DispatchResult.iters]
        omega
    · split
      · rename_i hb0
        exact absurd hb0 (by omega)
      · dsimp only
        split
        · constructor
          · simp [DispatchResult.isPanicked]
          · simp only [DispatchResult.iters]
            omega
        · rename_i hbz hne
          have hhit : (runTier o sl (100 - b) c st).2.2 =
              (tierSubs sl (100 - b)).length := rfl
          have hcount : subcount + (runTier o sl (100 - b) c st).2.2 =
              countBelow sl (100 - b + 1) := by
            rw [hhit, countBelow_succ, hsub]
          have hb2 : 2 ≤ b := by
            rcases Nat.lt_or_ge b 2 with hlt | hge
            · exfalso
              have hb1' : b = 1 := by omega
              subst hb1'
              apply hne
              rw [hcount]
              have h100 : (100 : Nat) - 1 + 1 = 100 := by omega
              rw [h100]
              exact countBelow_all sl hall
            · exact hge
          obtain ⟨b', rfl⟩ : ∃ b', b = b' + 1 := ⟨b - 1, by omega⟩
          have harg : 100 - (b' + 1) + 1 = 100 - b' := by omega
          have hres := ih b' (by omega) (by omega) (by omega)
            (subcount + (runTier o sl (100 - (b' + 1)) c st).2.2) (iters + 1)
            ((runTier o sl (100 - (b' + 1)) c st).1)
            (by rw [hcount, harg])
          exact ⟨hres.1, le_trans hres.2 (by omega)⟩

/-! ### callSubscribers corollaries -/

theorem StateInv_callSubscribers (o : String → PluginOutcome) (ctid : Nat)
    (sess : Session) (st : DispatchState) (h : StateInv st)
    (hfind : findSession st ctid = some sess) :
    StateInv (callSubscribers o ctid sess st).state := by
  unfold callSubscribers MirrorNfqueueSubscriptions
  dsimp only
  split
  · rename_i hlen
    have hsubs : sess.subscriptions = [] := List.length_eq_zero.mp hlen
    have hcid : sess.conntrackID = ctid := h.1 ctid sess hfind
    rw [hcid]
    exact StateInv_addBypass_noSubs st ctid sess h hfind hsubs
  · exact StateInv_walkAux o _ ctid _ 101 0 0 st h

theorem FramePreserved_callSubscribers (o : String → PluginOutcome)
    (ctid : Nat) (sess : Session) (st : DispatchState) :
    FramePreserved st (callSubscribers o ctid sess st).state := by
  unfold callSubscribers MirrorNfqueueSubscriptions
  dsimp only
  split
  · exact FramePreserved_addSessionEntry st _ _ _
  · exact FramePreserved_walkAux o _ ctid _ 101 0 0 st

theorem callSubscribers_verdict_accept (o : String → PluginOutcome)
    (ctid : Nat) (sess : Session) (st : DispatchState) (v i : Nat)
    (st' : DispatchState)
    (heq : callSubscribers o ctid sess st = DispatchResult.verdict v i st') :
    v = NfAccept := by
  unfold callSubscribers MirrorNfqueueSubscriptions at heq
  dsimp only at heq
  split at heq
  · cases heq
    rfl
  · exact walkAux_verdict_accept o _ ctid _ 101 0 0 st v i st' heq

theorem callSubscribers_iters_le (o : String → PluginOutcome) (ctid : Nat)
    (sess : Session) (st : DispatchState) :
    (callSubscribers o ctid sess st).iters ≤ 101 := by
  unfold callSubscribers MirrorNfqueueSubscriptions
  dsimp only
  split
  · simp [DispatchResult.iters]
  · exact walkAux_iters_le o _ ctid _ 101 0 0 st

theorem callSubscribers_no_panic (o : String → PluginOutcome) (ctid : Nat)
    (sess : Session) (st : DispatchState)
    (hall : ∀ h ∈ sess.subscriptions, h.priority < 100) :
    ¬ (callSubscribers o ctid sess st).isPanicked = true ∧
    (callSubscribers o ctid sess st).iters ≤ 100 := by
  unfold callSubscribers MirrorNfqueueSubscriptions
  dsimp only
  split
  · constructor
    · simp [DispatchResult.isPanicked]
    · simp [DispatchResult.iters]
  · have hw := walkAux_no_panic o sess.subscriptions ctid hall 100 (by omega)
      (by omega) 0 0 st (by rw [show (100 : Nat) - 100 = 0 from rfl,
        countBelow_zero])
    rw [show (100 : Nat) + 1 = 101 from rfl] at hw
    exact ⟨hw.1, by omega⟩

theorem callSubscribers_empty_bypass (o : String → PluginOutcome) (ctid : Nat)
    (sess : Session) (st : DispatchState)
    (hsubs : MirrorNfqueueSubscriptions sess = []) :
    bypassSet (callSubscribers o ctid sess st).state sess.conntrackID := by
  unfold callSubscribers
  rw [hsubs]
  dsimp only [List.length_nil]
  rw [if_pos rfl]
  exact bypassSet_addSessionEntry_bypass st sess.conntrackID

/-! ### tailSession and dispatchTail lemmas -/

theorem tailSession_conntrackID (sess : Session) (t : Tuple)
    (len pmark now : Nat) (ns : Bool) :
    (tailSession sess t len pmark now ns).conntrackID = sess.conntrackID := by
  unfold tailSession
  dsimp only
  split <;> split <;> rfl

theorem tailSession_subscriptions (sess : Session) (t : Tuple)
    (len pmark now : Nat) (ns : Bool) :
    (tailSession sess t len pmark now ns).subscriptions =
      sess.subscriptions := by
  unfold tailSession
  dsimp only
  split <;> split <;> rfl

theorem tailSession_creationTime (sess : Session) (t : Tuple)
    (len pmark now : Nat) (ns : Bool) :
    (tailSession sess t len pmark now ns).creationTime = sess.creationTime := by
  unfold tailSession
  dsimp only
  split <;> split <;> rfl

theorem tailSession_packetCount (sess : Session) (t : Tuple)
    (len pmark now : Nat) (ns : Bool) :
    (tailSession sess t len pmark now ns).packetCount =
      sess.packetCount + 1 := by
  unfold tailSession
  dsimp only
  split <;> split <;> rfl

theorem tailSession_sessionID (sess : Session) (t : Tuple)
    (len pmark now : Nat) (ns : Bool) :
    (tailSession sess t len pmark now ns).sessionID = sess.sessionID := by
  unfold tailSession
  dsimp only
  split <;> split <;> rfl

theorem tailSession_clientSideTuple (sess : Session) (t : Tuple)
    (len pmark now : Nat) (ns : Bool) :
    (tailSession sess t len pmark now ns).clientSideTuple =
      sess.clientSideTuple := by
  unfold tailSession
  dsimp only
  split <;> split <;> rfl

theorem StateInv_dispatchTail (o : String → PluginOutcome)
    (st : DispatchState) (ctid : Nat) (sess : Session) (t : Tuple)
    (len pmark now : Nat) (ns : Bool) (h : StateInv st)
    (hfind : findSession st ctid = some sess)
    (hcid : sess.conntrackID = ctid) :
    StateInv (dispatchTail o st ctid sess t len pmark now ns).state := by
  unfold dispatchTail
  dsimp only
  set st1 := if ns = true then removeConntrack st ctid else st with hst1
  have h1 : StateInv st1 := by
    rw [hst1]
    split
    · exact ⟨fun k s hf => h.1 k s hf, fun c s hb hf => h.2 c s hb hf⟩
    · exact h
  have hfind1 : findSession st1 ctid = some sess := by
    rw [hst1]
    split
    · rw [findSession_removeConntrack]
      exact hfind
    · exact hfind
  set sess' := tailSession sess t len pmark now ns with hsess'
  have hU : StateInv (updateSession st1 ctid sess') := by
    constructor
    · intro k s hf
      by_cases hk : k = ctid
      · subst hk
        rw [findSession_updateSession_self, hfind1] at hf
        rw [← Option.some.inj hf, hsess', tailSession_conntrackID]
        exact hcid
      · rw [findSession_updateSession_ne st1 ctid k _ hk] at hf
        exact h1.1 k s hf
    · intro c' s hb hf
      have hb' : bypassSet st1 c' := hb
      by_cases hk : c' = ctid
      · subst hk
        rw [findSession_updateSession_self, hfind1] at hf
        rw [← Option.some.inj hf, hsess', tailSession_subscriptions]
        exact h1.2 c' sess hb' hfind1
      · rw [findSession_updateSession_ne st1 ctid c' _ hk] at hf
        exact h1.2 c' s hb' hf
  have hfindU : findSession (updateSession st1 ctid sess') ctid = some sess' := by
    rw [findSession_updateSession_self, hfind1]
    rfl
  exact StateInv_callSubscribers o ctid sess' _ hU hfindU

theorem dispatchTail_find (o : String → PluginOutcome) (st : DispatchState)
    (ctid : Nat) (sess : Session) (t : Tuple) (len pmark now : Nat)
    (ns : Bool) (hfind : (findSession st ctid).isSome = true) :
    (findSession (dispatchTail o st ctid sess t len pmark now ns).state
      ctid).map sessSansSubs =
      some (sessSansSubs (tailSession sess t len pmark now ns)) := by
  unfold dispatchTail
  dsimp only
  set st1 := if ns = true then removeConntrack st ctid else st with hst1
  have hfind1 : (findSession st1 ctid).isSome = true := by
    rw [hst1]
    split
    · rw [findSession_removeConntrack]
      exact hfind
    · exact hfind
  set sess' := tailSession sess t len pmark now ns with hsess'
  have hframe := FramePreserved_callSubscribers o ctid sess'
    (updateSession st1 ctid sess')
  rw [hframe.2.2.2.1 ctid, findSession_updateSession_self]
  cases hf1 : findSession st1 ctid with
  | none => rw [hf1] at hfind1; exact absurd hfind1 (by simp)
  | some s0 => rfl

theorem dispatchTail_dict_mono (o : String → PluginOutcome)
    (st : DispatchState) (ctid : Nat) (sess : Session) (t : Tuple)
    (len pmark now : Nat) (ns : Bool) :
    DictMono st (dispatchTail o st ctid sess t len pmark now ns).state := by
  unfold dispatchTail
  dsimp only
  intro c f hsome
  have hframe := FramePreserved_callSubscribers o ctid
    (tailSession sess t len pmark now ns)
    (updateSession (if ns = true then removeConntrack st ctid else st) ctid
      (tailSession sess t len pmark now ns))
  apply hframe.2.2.2.2 c f
  split <;> exact hsome

theorem dispatchTail_nextSessionID (o : String → PluginOutcome)
    (st : DispatchState) (ctid : Nat) (sess : Session) (t : Tuple)
    (len pmark now : Nat) (ns : Bool) :
    (dispatchTail o st ctid sess t len pmark now ns).state.nextSessionID =
      st.nextSessionID := by
  unfold dispatchTail
  dsimp only
  have hframe := FramePreserved_callSubscribers o ctid
    (tailSession sess t len pmark now ns)
    (updateSession (if ns = true then removeConntrack st ctid else st) ctid
      (tailSession sess t len pmark now ns))
  rw [hframe.2.1]
  split <;> rfl

theorem dispatchTail_conntrackTable_not_new (o : String → PluginOutcome)
    (st : DispatchState) (ctid : Nat) (sess : Session) (t : Tuple)
    (len pmark now : Nat) :
    (dispatchTail o st ctid sess t len pmark now false).state.conntrackTable =
      st.conntrackTable := by
  unfold dispatchTail
  dsimp only
  rw [if_neg Bool.false_ne_true]
  have hframe := FramePreserved_callSubscribers o ctid
    (tailSession sess t len pmark now false)
    (updateSession st ctid (tailSession sess t len pmark now false))
  rw [hframe.1]
  rfl

/-! ### createSession and session-table branch lemmas -/

theorem createSession_find_self (st : DispatchState) (t : Tuple)
    (fam len c now : Nat) :
    findSession (createSession st t fam len c now).1 c =
      some (createSession st t fam len c now).2 := by
  unfold createSession
  dsimp only
  exact findSession_insertSessionTable_self _ _ _

theorem StateInv_createSession (st : DispatchState) (t : Tuple)
    (fam len c now : Nat) (h : StateInv st) (hnb : ¬ bypassSet st c) :
    StateInv (createSession st t fam len c now).1 := by
  unfold createSession
  dsimp only
  constructor
  · intro k s hf
    by_cases hk : k = c
    · subst hk
      rw [findSession_insertSessionTable_self] at hf
      rw [← Option.some.inj hf]
    · rw [findSession_insertSessionTable_ne _ _ _ _ hk] at hf
      exact h.1 k s hf
  · intro c' s hb hf
    have hb' : bypassSet st c' := hb
    by_cases hk : c' = c
    · subst hk
      exact absurd hb' hnb
    · rw [findSession_insertSessionTable_ne _ _ _ _ hk] at hf
      exact h.2 c' s hb' hf

theorem StateInv_removeFromSessionTable (st : DispatchState) (c : Nat)
    (h : StateInv st) : StateInv (removeFromSessionTable st c) := by
  constructor
  · intro k s hf
    by_cases hk : k = c
    · subst hk
      rw [findSession_removeFromSessionTable_self] at hf
      exact absurd hf (by simp)
    · rw [findSession_removeFromSessionTable_ne st c k hk] at hf
      exact h.1 k s hf
  · intro c' s hb hf
    have hb' : bypassSet st c' := hb
    by_cases hk : c' = c
    · subst hk
      rw [findSession_removeFromSessionTable_self] at hf
      exact absurd hf (by simp)
    · rw [findSession_removeFromSessionTable_ne st c c' hk] at hf
      exact h.2 c' s hb' hf

/-! ### nfqueueCallback lemmas -/

theorem dispatchTail_verdict_accept (o : String → PluginOutcome)
    (st : DispatchState) (ctid : Nat) (sess : Session) (t : Tuple)
    (len pmark now : Nat) (ns : Bool) (v i : Nat) (st' : DispatchState)
    (heq : dispatchTail o st ctid sess t len pmark now ns =
      DispatchResult.verdict v i st') : v = NfAccept := by
  unfold dispatchTail at heq
  dsimp only at heq
  exact callSubscribers_verdict_accept o ctid _ _ v i st' heq

theorem nfqueueCallback_verdict_accept (o : String → PluginOutcome)
    (st : DispatchState) (ctid fam : Nat) (pkt : Packet)
    (len pmark now : Nat) (v i : Nat) (st' : DispatchState)
    (heq : nfqueueCallback o st ctid fam pkt len pmark now =
      DispatchResult.verdict v i st') : v = NfAccept := by
  unfold nfqueueCallback at heq
  cases htup : packetTuple pkt with
  | none =>
    rw [htup] at heq
    cases heq
    rfl
  | some t =>
    rw [htup] at heq
    dsimp only at heq
    split at heq
    · cases heq
      rfl
    · split at heq
      · split at heq
        · cases heq
          rfl
        · exact dispatchTail_verdict_accept o _ ctid _ t len pmark now false
            v i st' heq
      · split at heq
        · exact dispatchTail_verdict_accept o _ ctid _ t len pmark now true
            v i st' heq
        · split at heq
          · exact dispatchTail_verdict_accept o _ ctid _ t len pmark now false
              v i st' heq
          · exact dispatchTail_verdict_accept o _ ctid _ t len pmark now true
              v i st' heq

theorem StateInv_nfqueueCallback (o : String → PluginOutcome)
    (st : DispatchState) (ctid fam : Nat) (pkt : Packet)
    (len pmark now : Nat) (h : StateInv st)
    (hmark : ¬ pmark.land 0x10000000 = 0 → ¬ bypassSet st ctid) :
    StateInv (nfqueueCallback o st ctid fam pkt len pmark now).state := by
  unfold nfqueueCallback
  cases htup : packetTuple pkt with
  | none => exact h
  | some t =>
    dsimp only
    split
    · exact h
    · split
      · -- mark bit clear
        split
        · rename_i hfind
          exact StateInv_addBypass_none st ctid h hfind
        · rename_i sess0 hfind
          have hcid := h.1 ctid sess0 hfind
          exact StateInv_dispatchTail o _ ctid sess0 t len pmark now false
            (StateInv_mismatchCheck st sess0 ctid h)
            (by rw [findSession_mismatchCheck]; exact hfind) hcid
      · -- mark bit set
        rename_i hmne
        have hnb : ¬ bypassSet st ctid := hmark hmne
        split
        · exact StateInv_dispatchTail o _ ctid _ t len pmark now true
            (StateInv_createSession st t fam len ctid now h hnb)
            (createSession_find_self st t fam len ctid now) rfl
        · rename_i sess0 hfind
          split
          · have hcid := h.1 ctid sess0 hfind
            exact StateInv_dispatchTail o _ ctid sess0 t len pmark now false
              (StateInv_mismatchCheck st sess0 ctid h)
              (by rw [findSession_mismatchCheck]; exact hfind) hcid
          · have hrm := StateInv_removeFromSessionTable st ctid h
            have hnb' : ¬ bypassSet (removeFromSessionTable st ctid) ctid := hnb
            exact StateInv_dispatchTail o _ ctid _ t len pmark now true
              (StateInv_mismatchCheck _ _ ctid
                (StateInv_createSession _ t fam len ctid now hrm hnb'))
              (by rw [findSession_mismatchCheck]
                  exact createSession_find_self _ t fam len ctid now) rfl

/-! ### Kernel ruleset lemmas -/

theorem lor_land_self (x b : Nat) : (x.lor b).land b = b := by
  apply Nat.eq_of_testBit_eq
  intro i
  rw [show (x.lor b).land b = (x ||| b) &&& b from rfl, Nat.testBit_and,
    Nat.testBit_or]
  cases hx : x.testBit i <;> cases hb : b.testBit i <;> simp

theorem packetdQueue_flushed (be : Bool) (p : NftPacket) :
    (packetdQueue be p).flushed = p.ctStateNew := by
  unfold packetdQueue
  dsimp only
  split
  · rfl
  · split
    · rfl
    · split
      · rfl
      · split
        · rfl
        · split
          · rfl
          · split <;> rfl

theorem packetdQueue_mark_of_not_new (be : Bool) (p : NftPacket)
    (h : p.ctStateNew = false) : (packetdQueue be p).mark = p.mark := by
  unfold packetdQueue
  dsimp only
  split
  · rfl
  · split
    · rfl
    · split
      · rfl
      · split
        · rfl
        · split
          · rfl
          · split
            · rfl
            · simp [h]

theorem packetdQueue_not_queued_of_mark (be : Bool) (p : NftPacket)
    (h : p.ctMark.land 0x80000000 = 0x80000000) :
    (packetdQueue be p).queued = false := by
  unfold packetdQueue
  dsimp only
  split
  · rfl
  · split
    · rfl
    · split
      · rfl
      · rfl

theorem StateInv_kernelDeliver (o : String → PluginOutcome)
    (st : DispatchState) (fam : Nat) (pkt : Packet) (len : Nat)
    (np : NftPacket) (now : Nat) (h : StateInv st)
    (hm : np.mark.land 0x10000000 = 0) :
    StateInv (kernelDeliver o st fam pkt len np now).state := by
  unfold kernelDeliver
  dsimp only
  cases hnew : np.ctStateNew with
  | true =>
    have hfl : (packetdQueue (decide (bypassSet st np.ctId)) np).flushed = true := by
      rw [packetdQueue_flushed, hnew]
    rw [if_pos hfl]
    split
    · exact StateInv_nfqueueCallback o _ np.ctId fam pkt len _ now
        (StateInv_flushSessionDict st np.ctId h)
        (fun _ => by
          unfold bypassSet
          rw [lookupDictField_flush_self]
          simp)
    · exact StateInv_flushSessionDict st np.ctId h
  | false =>
    have hfl : ¬ (packetdQueue (decide (bypassSet st np.ctId)) np).flushed = true := by
      rw [packetdQueue_flushed, hnew]
      simp
    rw [if_neg hfl]
    split
    · exact StateInv_nfqueueCallback o st np.ctId fam pkt len _ now h
        (fun hne => absurd hm (by
          rwa [packetdQueue_mark_of_not_new _ _ hnew] at hne))
    · exact h

/-! ### Projection helpers -/

theorem map_sessSansSubs_proj_pc (r : Option Session) (s' : Session)
    (h : r.map sessSansSubs = some (sessSansSubs s')) :
    r.map (fun s => (s.creationTime, s.packetCount)) =
      some (s'.creationTime, s'.packetCount) := by
  cases r with
  | none => exact Option.noConfusion h
  | some s =>
    have hs : sessSansSubs s = sessSansSubs s' := Option.some.inj h
    show some ((sessSansSubs s).creationTime, (sessSansSubs s).packetCount) =
      some ((sessSansSubs s').creationTime, (sessSansSubs s').packetCount)
    rw [hs]

theorem map_sessSansSubs_proj_idct (r : Option Session) (s' : Session)
    (h : r.map sessSansSubs = some (sessSansSubs s')) :
    r.map (fun s => (s.sessionID, s.creationTime)) =
      some (s'.sessionID, s'.creationTime) := by
  cases r with
  | none => exact Option.noConfusion h
  | some s =>
    have hs : sessSansSubs s = sessSansSubs s' := Option.some.inj h
    show some ((sessSansSubs s).sessionID, (sessSansSubs s).creationTime) =
      some ((sessSansSubs s').sessionID, (sessSansSubs s').creationTime)
    rw [hs]

theorem map_sessSansSubs_proj_new (r : Option Session) (s' : Session)
    (h : r.map sessSansSubs = some (sessSansSubs s')) :
    r.map (fun s => (s.sessionID, s.conntrackID, s.clientSideTuple,
      s.creationTime)) =
      some (s'.sessionID, s'.conntrackID, s'.clientSideTuple,
        s'.creationTime) := by
  cases r with
  | none => exact Option.noConfusion h
  | some s =>
    have hs : sessSansSubs s = sessSansSubs s' := Option.some.inj h
    show some ((sessSansSubs s).sessionID, (sessSansSubs s).conntrackID, (sessSansSubs s).clientSideTuple, (sessSansSubs s).creationTime) =
      some ((sessSansSubs s').sessionID, (sessSansSubs s').conntrackID, (sessSansSubs s').clientSideTuple, (sessSansSubs s').creationTime)
    rw [hs]

/-! ### putAttachment lemmas -/

theorem putAttachment_subs_map (st : DispatchState) (key : Nat)
    (n v : String) (k : Nat) :
    (findSession (putAttachment st key n v) k).map Session.subscriptions =
      (findSession st k).map Session.subscriptions := by
  unfold putAttachment
  cases hfind : findSession st key with
  | none => rfl
  | some sess =>
    by_cases hk : k = key
    · subst hk
      rw [findSession_updateSession_self, hfind]
      rfl
    · rw [findSession_updateSession_ne st key k _ hk]

@[simp] theorem lookupDictField_putAttachment (st : DispatchState) (key : Nat)
    (n v : String) (c : Nat) (f : String) :
    lookupDictField (putAttachment st key n v) c f = lookupDictField st c f := by
  unfold putAttachment
  cases hfind : findSession st key with
  | none => rfl
  | some sess => rfl

/-! ### Concrete fixtures for witnesses and counterexamples -/

/-- TCP 10.0.0.5:54321 → 93.184.216.34:443. -/
def tupA : Tuple :=
  { protocol := 6, clientAddress := [10, 0, 0, 5], clientPort := 54321,
    serverAddress := [93, 184, 216, 34], serverPort := 443 }

/-- The packet carrying tupA. -/
def pktA : Packet :=
  { ip4 := some ⟨6, [10, 0, 0, 5], [93, 184, 216, 34]⟩,
    ip6 := none,
    tcp := some ⟨54321, 443, false, false⟩,
    udp := none, payload := [] }

/-- A session for ctid 7 whose only subscriber sits at priority 3. -/
def sessSlow : Session :=
  { sessionID := 5, conntrackID := 7, creationTime := 1000,
    lastActivity := 1000, packetCount := 1, byteCount := 60, eventCount := 1,
    clientSideTuple := tupA, family := 2, conntrackConfirmed := false,
    clientInterfaceID := 2, clientInterfaceType := 0, serverInterfaceID := 0,
    serverInterfaceType := 0,
    subscriptions := [⟨"slowplugin", 3⟩],
    attachments := [] }

/-- State holding sessSlow under ctid 7. -/
def stSlow : DispatchState :=
  { sessionTable := [(7, sessSlow)], conntrackTable := [], dictSessions := [],
    errorCounters := [], nextSessionID := 6, registry := [] }

/-- A session for ctid 7 whose only subscriber sits at priority 100. -/
def sessP100 : Session :=
  { sessSlow with subscriptions := [⟨"p100", 100⟩] }

/-- State holding sessP100 under ctid 7. -/
def stP100 : DispatchState :=
  { stSlow with sessionTable := [(7, sessP100)] }

/-- A session for ctid 1 whose only subscriber is the geoip plugin. -/
def sessGeo : Session :=
  { sessSlow with conntrackID := 1, subscriptions := [⟨"geoip", 0⟩] }

/-- State holding sessGeo under ctid 1. -/
def stGeo : DispatchState :=
  { stSlow with sessionTable := [(1, sessGeo)] }

/-- A session for ctid 3 with no subscriptions left. -/
def sessBare : Session := { sessSlow with conntrackID := 3, subscriptions := [] }

/-- State holding sessBare under ctid 3. -/
def stBare : DispatchState :=
  { stSlow with sessionTable := [(3, sessBare)] }

/-- The empty dispatch state. -/
def stEmpty : DispatchState :=
  { sessionTable := [], conntrackTable := [], dictSessions := [],
    errorCounters := [], nextSessionID := 1, registry := [] }

/-- Every handler hangs past the watchdog. -/
def hangAll : String → PluginOutcome := fun _ => PluginOutcome.hangs

/-- Every handler promptly returns SessionRelease=false. -/
def retAll : String → PluginOutcome := fun _ => PluginOutcome.returns false

/-- No geoip database available. -/
def noDb : IPAddr → Option String := fun _ => none

/-- No private address blocks configured. -/
def noPriv : IPAddr → Bool := fun _ => false

/-- The geoip view of pktA's message for the session stored at key 1. -/
def messGeo : GeoipMessage :=
  { sessionKey := 1,
    ip4 := some ⟨6, [10, 0, 0, 5], [93, 184, 216, 34]⟩,
    ip6 := none }

/-- A new locally destined non-DNS packet. -/
def npLocalIn : NftPacket :=
  { ctStateNew := true, ctStateInvalid := false, ctStateUntracked := false,
    ctMark := 0, mark := 2, ctId := 11, ctPackets := 1, srcLoopback := false,
    dstLoopback := false, srcAnycast := false, dstAnycast := false,
    srcBroadcast := false, dstBroadcast := false, srcMulticast := false,
    dstMulticast := false, udpDport := none, tcpDport := some 22 }

/-! ### Claim theorems -/

/-- C1: the spec says a plugin handler that misses the 30-second watchdog has
`session_release=true` recorded (its subscription removed), the counted error
`nfqueue_plugin_timeout` emitted, and the dispatcher continuing to the next
tiers and returning accept, never blocking indefinitely.  The code disagrees:
on timeout the synthesised result is sent to the per-invocation channel `c`
instead of `resultsChannel` (nfqueue.go line 300), so with a single hanging
subscriber at priority 3 the result-collection loop blocks forever: the
subscription is still present, no bypass is written, and only the counted
error was emitted. -/
theorem c1_plugin_timeout_blocks_dispatcher :
    (callSubscribers hangAll 7 sessSlow stSlow).isBlocked = true ∧
    (callSubscribers hangAll 7 sessSlow stSlow).state.errorCounters =
      ["nfqueue_plugin_timeout"] ∧
    (findSession (callSubscribers hangAll 7 sessSlow stSlow).state 7).map
      Session.subscriptions = some [⟨"slowplugin", 3⟩] ∧
    lookupDictField (callSubscribers hangAll 7 sessSlow stSlow).state 7
      "bypass_packetd" = none := by decide

/-- C2 counterexample: a first packet (new-flow mark bit set, no session for
ctid 9) leaves the created session with packet_count = 2, not 1: createSession
initialises the count to 1 and the per-packet accounting (nfqueue.go line
235) adds 1 again. -/
theorem c2_first_packet_count_counterexample :
    (findSession (nfqueueCallback retAll stEmpty 9 2 pktA 60 0x10000002
      5000).state 9).map Session.packetCount = some 2 ∧
    ¬ (findSession (nfqueueCallback retAll stEmpty 9 2 pktA 60 0x10000002
      5000).state 9).map Session.packetCount = some 1 ∧
    (findSession (nfqueueCallback retAll stEmpty 9 2 pktA 60 0x10000002
      5000).state 9).map Session.creationTime = some 5000 := by decide

/-- C2 (amended): for every packet carrying mark bit 0x10000000 that arrives
when no session exists for its ctid, after the dispatcher processes it a
Session exists in the session table with creation_time equal to the
processing time and packet_count equal to 2 (the creating packet is counted
once at creation and once by the per-packet accounting). -/
theorem c2_new_session_created (o : String → PluginOutcome)
    (st : DispatchState) (ctid fam : Nat) (pkt : Packet) (t : Tuple)
    (len pmark now : Nat)
    (htup : packetTuple pkt = some t)
    (hlb : (t.clientAddress.isLoopback || t.serverAddress.isLoopback) = false)
    (hmark : ¬ pmark.land 0x10000000 = 0)
    (hfind : findSession st ctid = none) :
    (findSession (nfqueueCallback o st ctid fam pkt len pmark now).state
      ctid).map (fun s => (s.creationTime, s.packetCount)) =
      some (now, 2) := by
  unfold nfqueueCallback
  rw [htup]
  dsimp only
  rw [hlb, if_neg Bool.false_ne_true, if_neg hmark, hfind]
  dsimp only
  have hfound : (findSession (createSession st t fam len ctid now).1
      ctid).isSome = true := by
    rw [createSession_find_self]
    rfl
  have hmap := dispatchTail_find o (createSession st t fam len ctid now).1
    ctid (createSession st t fam len ctid now).2 t len pmark now true hfound
  have hproj := map_sessSansSubs_proj_pc _ _ hmap
  rw [hproj, tailSession_creationTime, tailSession_packetCount]
  rfl

/-- C2 witness: the amended theorem applied at the concrete first packet of a
new TCP flow. -/
theorem c2_new_session_created_witness :
    (packetTuple pktA = some tupA ∧
      (tupA.clientAddress.isLoopback || tupA.serverAddress.isLoopback) =
        false ∧
      ¬ (0x10000002 : Nat).land 0x10000000 = 0 ∧
      findSession stEmpty 9 = none) ∧
    (findSession (nfqueueCallback retAll stEmpty 9 2 pktA 60 0x10000002
      5000).state 9).map (fun s => (s.creationTime, s.packetCount)) =
      some (5000, 2) :=
  ⟨⟨by decide, by decide, by decide, by decide⟩,
    c2_new_session_created retAll stEmpty 9 2 pktA tupA 60 0x10000002 5000
      (by decide) (by decide) (by decide) (by decide)⟩

/-- C3: on a packet with the new-packet bit whose ctid already has a session:
if the incoming tuple equals the stored client-side tuple the session is
reused (same session id and creation time, no conntrack-record removal, no
id allocation); if the tuples differ the table afterwards holds a freshly
created session for the same ctid built from the packet, and no field of the
dictionary entry for the ctid is deleted by this path. -/
theorem c3_ctid_reuse_reconciliation (o : String → PluginOutcome)
    (st : DispatchState) (ctid fam : Nat) (pkt : Packet) (t : Tuple)
    (len pmark now : Nat) (sess0 : Session)
    (htup : packetTuple pkt = some t)
    (hlb : (t.clientAddress.isLoopback || t.serverAddress.isLoopback) = false)
    (hmark : ¬ pmark.land 0x10000000 = 0)
    (hfind : findSession st ctid = some sess0) :
    (t = sess0.clientSideTuple →
      (findSession (nfqueueCallback o st ctid fam pkt len pmark now).state
        ctid).map (fun s => (s.sessionID, s.creationTime)) =
        some (sess0.sessionID, sess0.creationTime) ∧
      (nfqueueCallback o st ctid fam pkt len pmark now).state.conntrackTable =
        st.conntrackTable ∧
      (nfqueueCallback o st ctid fam pkt len pmark now).state.nextSessionID =
        st.nextSessionID) ∧
    (¬ t = sess0.clientSideTuple →
      (findSession (nfqueueCallback o st ctid fam pkt len pmark now).state
        ctid).map (fun s => (s.sessionID, s.conntrackID, s.clientSideTuple,
          s.creationTime)) = some (st.nextSessionID, ctid, t, now) ∧
      (∀ f, (lookupDictField st ctid f).isSome = true →
        (lookupDictField (nfqueueCallback o st ctid fam pkt len pmark
          now).state ctid f).isSome = true)) := by
  constructor
  · intro heqt
    unfold nfqueueCallback
    rw [htup]
    dsimp only
    rw [hlb, if_neg Bool.false_ne_true, if_neg hmark, hfind]
    try dsimp only
    rw [if_pos heqt]
    refine ⟨?_, ?_, ?_⟩
    · have hfound : (findSession (mismatchCheck st sess0 ctid) ctid).isSome =
          true := by
        rw [findSession_mismatchCheck, hfind]
        rfl
      have hmap := dispatchTail_find o (mismatchCheck st sess0 ctid) ctid
        sess0 t len pmark now false hfound
      have hproj := map_sessSansSubs_proj_idct _ _ hmap
      rw [hproj, tailSession_sessionID, tailSession_creationTime]
    · rw [dispatchTail_conntrackTable_not_new, mismatchCheck_conntrackTable]
    · rw [dispatchTail_nextSessionID, mismatchCheck_nextSessionID]
  · intro hneq
    unfold nfqueueCallback
    rw [htup]
    dsimp only
    rw [hlb, if_neg Bool.false_ne_true, if_neg hmark, hfind]
    try dsimp only
    rw [if_neg hneq]
    try dsimp only
    constructor
    · have hfound : (findSession (mismatchCheck
          (createSession (removeFromSessionTable st ctid) t fam len ctid
            now).1
          (createSession (removeFromSessionTable st ctid) t fam len ctid
            now).2 ctid) ctid).isSome = true := by
        rw [findSession_mismatchCheck, createSession_find_self]
        rfl
      have hmap := dispatchTail_find o _ ctid
        (createSession (removeFromSessionTable st ctid) t fam len ctid now).2
        t len pmark now true hfound
      have hproj := map_sessSansSubs_proj_new _ _ hmap
      rw [hproj, tailSession_sessionID, tailSession_conntrackID,
        tailSession_clientSideTuple, tailSession_creationTime]
      rfl
    · intro f hsome
      have hmono := dispatchTail_dict_mono o (mismatchCheck
        (createSession (removeFromSessionTable st ctid) t fam len ctid now).1
        (createSession (removeFromSessionTable st ctid) t fam len ctid now).2
        ctid) ctid
        (createSession (removeFromSessionTable st ctid) t fam len ctid now).2
        t len pmark now true
      apply hmono ctid f
      rw [lookupDictField_mismatchCheck]
      exact hsome

/-- C3 witness: the theorem applied at a packet whose tuple equals the stored
session's client-side tuple. -/
theorem c3_ctid_reuse_reconciliation_witness :
    (packetTuple pktA = some tupA ∧
      (tupA.clientAddress.isLoopback || tupA.serverAddress.isLoopback) =
        false ∧
      ¬ (0x10000002 : Nat).land 0x10000000 = 0 ∧
      findSession stSlow 7 = some sessSlow) ∧
    ((tupA = sessSlow.clientSideTuple →
      (findSession (nfqueueCallback hangAll stSlow 7 2 pktA 60 0x10000002
        5000).state 7).map (fun s => (s.sessionID, s.creationTime)) =
        some (sessSlow.sessionID, sessSlow.creationTime) ∧
      (nfqueueCallback hangAll stSlow 7 2 pktA 60 0x10000002
        5000).state.conntrackTable = stSlow.conntrackTable ∧
      (nfqueueCallback hangAll stSlow 7 2 pktA 60 0x10000002
        5000).state.nextSessionID = stSlow.nextSessionID) ∧
    (¬ tupA = sessSlow.clientSideTuple →
      (findSession (nfqueueCallback hangAll stSlow 7 2 pktA 60 0x10000002
        5000).state 7).map (fun s => (s.sessionID, s.conntrackID,
          s.clientSideTuple, s.creationTime)) =
        some (stSlow.nextSessionID, 7, tupA, 5000) ∧
      (∀ f, (lookupDictField stSlow 7 f).isSome = true →
        (lookupDictField (nfqueueCallback hangAll stSlow 7 2 pktA 60
          0x10000002 5000).state 7 f).isSome = true))) :=
  ⟨⟨by decide, by decide, by decide, by decide⟩,
    c3_ctid_reuse_reconciliation hangAll stSlow 7 2 pktA tupA 60 0x10000002
      5000 sessSlow (by decide) (by decide) (by decide) (by decide)⟩

/-- C4: a packet whose ctid has no session and whose new-flow mark bit is
unset makes the dispatcher write `sessions[ctid].bypass_packetd = true`,
return the accept verdict, and create no session. -/
theorem c4_midflow_bypass (o : String → PluginOutcome) (st : DispatchState)
    (ctid fam : Nat) (pkt : Packet) (t : Tuple) (len pmark now : Nat)
    (htup : packetTuple pkt = some t)
    (hlb : (t.clientAddress.isLoopback || t.serverAddress.isLoopback) = false)
    (hmark : pmark.land 0x10000000 = 0)
    (hfind : findSession st ctid = none) :
    nfqueueCallback o st ctid fam pkt len pmark now =
      DispatchResult.verdict NfAccept 0
        (addSessionEntry st ctid "bypass_packetd" (DictValue.b true)) ∧
    bypassSet (nfqueueCallback o st ctid fam pkt len pmark now).state ctid ∧
    (nfqueueCallback o st ctid fam pkt len pmark now).state.sessionTable =
      st.sessionTable := by
  have heq : nfqueueCallback o st ctid fam pkt len pmark now =
      DispatchResult.verdict NfAccept 0
        (addSessionEntry st ctid "bypass_packetd" (DictValue.b true)) := by
    unfold nfqueueCallback
    rw [htup]
    dsimp only
    rw [hlb, if_neg Bool.false_ne_true, if_pos hmark, hfind]
  refine ⟨heq, ?_, ?_⟩
  · rw [heq]
    exact bypassSet_addSessionEntry_bypass st ctid
  · rw [heq]
    rfl

/-- C4 witness: the theorem applied at a concrete mid-flow packet. -/
theorem c4_midflow_bypass_witness :
    (packetTuple pktA = some tupA ∧
      (tupA.clientAddress.isLoopback || tupA.serverAddress.isLoopback) =
        false ∧
      (2 : Nat).land 0x10000000 = 0 ∧
      findSession stEmpty 9 = none) ∧
    (nfqueueCallback retAll stEmpty 9 2 pktA 60 2 5000 =
      DispatchResult.verdict NfAccept 0
        (addSessionEntry stEmpty 9 "bypass_packetd" (DictValue.b true)) ∧
    bypassSet (nfqueueCallback retAll stEmpty 9 2 pktA 60 2 5000).state 9 ∧
    (nfqueueCallback retAll stEmpty 9 2 pktA 60 2 5000).state.sessionTable =
      stEmpty.sessionTable) :=
  ⟨⟨by decide, by decide, by decide, by decide⟩,
    c4_midflow_bypass retAll stEmpty 9 2 pktA tupA 60 2 5000 (by decide)
      (by decide) (by decide) (by decide)⟩

/-- C5: the dispatcher writes `bypass_packetd=true` exactly when a session's
live subscription set becomes empty: ReleaseSession writes it for the
session's conntrack id when the last subscriber is removed; callSubscribers
writes it when its snapshot is already empty; and conversely the invariant
"a true bypass entry implies the session at that ctid is absent or has no
subscriptions" is preserved by ReleaseSession and by every kernel-mediated
packet delivery. -/
theorem c5_bypass_iff_subscriptions_empty :
    (∀ (st : DispatchState) (ctid : Nat) (sess : Session) (owner : String),
      findSession st ctid = some sess →
      ¬ sess.subscriptions.length = 0 →
      (sess.subscriptions.filter (fun h => ¬ h.owner = owner)).length = 0 →
      bypassSet (ReleaseSession st ctid owner) sess.conntrackID) ∧
    (∀ (oc : String → PluginOutcome) (ctid : Nat) (sess : Session)
      (st : DispatchState), MirrorNfqueueSubscriptions sess = [] →
      bypassSet (callSubscribers oc ctid sess st).state sess.conntrackID) ∧
    (∀ (st : DispatchState) (ctid : Nat) (owner : String), StateInv st →
      StateInv (ReleaseSession st ctid owner)) ∧
    (∀ (oc : String → PluginOutcome) (st : DispatchState) (fam : Nat)
      (pkt : Packet) (len : Nat) (np : NftPacket) (now : Nat), StateInv st →
      np.mark.land 0x10000000 = 0 →
      StateInv (kernelDeliver oc st fam pkt len np now).state) :=
  ⟨fun st ctid sess owner hf hl hz =>
      ReleaseSession_writes_bypass st ctid owner sess hf hl hz,
    fun oc ctid sess st hs => callSubscribers_empty_bypass oc ctid sess st hs,
    fun st ctid owner h => StateInv_ReleaseSession st ctid owner h,
    fun oc st fam pkt len np now h hm =>
      StateInv_kernelDeliver oc st fam pkt len np now h hm⟩

/-- C5 witness: releasing the only subscriber of the concrete session writes
the bypass entry. -/
theorem c5_bypass_iff_subscriptions_empty_witness :
    (findSession stSlow 7 = some sessSlow ∧
      ¬ sessSlow.subscriptions.length = 0 ∧
      (sessSlow.subscriptions.filter
        (fun h => ¬ h.owner = "slowplugin")).length = 0) ∧
    bypassSet (ReleaseSession stSlow 7 "slowplugin") sessSlow.conntrackID :=
  ⟨⟨by decide, by decide, by decide⟩,
    c5_bypass_iff_subscriptions_empty.1 stSlow 7 sessSlow "slowplugin"
      (by decide) (by decide) (by decide)⟩

theorem geoip_subsMap_chain (st0 : DispatchState) (ctid key k : Nat)
    (c1 c2 : DictValue) (a1 a2 : String) :
    (findSession (putAttachment (putAttachment (addSessionEntry
      (addSessionEntry st0 ctid "client_country" c1) ctid
      "server_country" c2) key "client_country" a1) key
      "server_country" a2) k).map Session.subscriptions =
      (findSession st0 k).map Session.subscriptions := by
  rw [putAttachment_subs_map, putAttachment_subs_map]
  rfl

theorem geoip_dict_chain (st0 : DispatchState) (ctid key c : Nat)
    (c1 c2 : DictValue) (a1 a2 : String) :
    lookupDictField (putAttachment (putAttachment (addSessionEntry
      (addSessionEntry st0 ctid "client_country" c1) ctid
      "server_country" c2) key "client_country" a1) key
      "server_country" a2) c "bypass_packetd" =
      lookupDictField st0 c "bypass_packetd" := by
  rw [lookupDictField_putAttachment, lookupDictField_putAttachment]
  by_cases hc : c = ctid
  · subst hc
    rw [lookupDictField_add_ne_field _ _ _ _ _ (by decide),
      lookupDictField_add_ne_field _ _ _ _ _ (by decide)]
  · rw [lookupDictField_add_ne_ctid _ _ _ _ _ _ hc,
      lookupDictField_add_ne_ctid _ _ _ _ _ _ hc]

/-- C6 counterexample: the geoip handler called on the session at table key 1
(whose only subscriber is geoip) returns SessionRelease=false yet its direct
ReleaseSession call has removed the subscription and written
`bypass_packetd=true` — a bypass-affecting state change that did not travel
through the returned flag, refuting the claim as stated. -/
theorem c6_return_value_sole_channel_counterexample :
    (geoipNfqueueHandler noDb noPriv stGeo messGeo 1 false).2.sessionRelease
      = false ∧
    (findSession (geoipNfqueueHandler noDb noPriv stGeo messGeo 1
      false).1 1).map Session.subscriptions = some [] ∧
    bypassSet (geoipNfqueueHandler noDb noPriv stGeo messGeo 1 false).1 1 := by
  decide

/-- C6 (amended): the geoip handler always returns SessionRelease=false and
influences bypass only by calling ReleaseSession directly at the start of
every invocation: its effect on subscription sets and on the
`bypass_packetd` dictionary field is exactly that of that ReleaseSession
call. -/
theorem c6_geoip_releases_directly (db : IPAddr → Option String)
    (pv : IPAddr → Bool) (st : DispatchState) (mess : GeoipMessage)
    (ctid : Nat) (ns : Bool) :
    (geoipNfqueueHandler db pv st mess ctid ns).2.sessionRelease = false ∧
    (∀ k, (findSession (geoipNfqueueHandler db pv st mess ctid ns).1 k).map
      Session.subscriptions =
      (findSession (ReleaseSession st mess.sessionKey "geoip") k).map
        Session.subscriptions) ∧
    (∀ c, lookupDictField (geoipNfqueueHandler db pv st mess ctid ns).1 c
      "bypass_packetd" =
      lookupDictField (ReleaseSession st mess.sessionKey "geoip") c
        "bypass_packetd") := by
  cases ns with
  | false => exact ⟨rfl, fun k => rfl, fun c => rfl⟩
  | true =>
    refine ⟨rfl, fun k => ?_, fun c => ?_⟩
    · exact geoip_subsMap_chain (ReleaseSession st mess.sessionKey "geoip")
        ctid mess.sessionKey k _ _ _ _
    · exact geoip_dict_chain (ReleaseSession st mess.sessionKey "geoip")
        ctid mess.sessionKey c _ _ _ _

/-- C6 witness: the amended theorem applied to the concrete geoip
invocation. -/
theorem c6_geoip_releases_directly_witness :
    (geoipNfqueueHandler noDb noPriv stGeo messGeo 1 true).2.sessionRelease
      = false :=
  (c6_geoip_releases_directly noDb noPriv stGeo messGeo 1 true).1

/-- C7: whenever the NFQueue dispatcher callback returns a verdict — on any
of its return paths — that verdict is NfAccept and never NfDrop. -/
theorem c7_verdict_always_accept (o : String → PluginOutcome)
    (st : DispatchState) (ctid fam : Nat) (pkt : Packet)
    (len pmark now : Nat) (v i : Nat) (st' : DispatchState)
    (heq : nfqueueCallback o st ctid fam pkt len pmark now =
      DispatchResult.verdict v i st') : v = NfAccept ∧ ¬ v = NfDrop := by
  have hv := nfqueueCallback_verdict_accept o st ctid fam pkt len pmark now
    v i st' heq
  refine ⟨hv, ?_⟩
  rw [hv]
  decide

/-- C7 witness: the theorem applied at a concrete mid-flow packet whose
verdict evaluates to accept. -/
theorem c7_verdict_always_accept_witness :
    (nfqueueCallback retAll stEmpty 9 2 pktA 60 2 5000 =
      DispatchResult.verdict NfAccept 0
        (addSessionEntry stEmpty 9 "bypass_packetd" (DictValue.b true))) ∧
    (NfAccept = NfAccept ∧ ¬ NfAccept = NfDrop) :=
  ⟨by decide,
    c7_verdict_always_accept retAll stEmpty 9 2 pktA 60 2 5000 NfAccept 0
      (addSessionEntry stEmpty 9 "bypass_packetd" (DictValue.b true))
      (by decide)⟩

set_option maxRecDepth 4000 in
/-- C8 counterexample: with a single subscriber at priority 100 whose handler
returns promptly, the priority walk executes 101 iterations — exceeding the
claimed bound of 100 — and aborts with the fatal
`nfqueue_priority_constraint` error even though every subscriber had been
called. -/
theorem c8_at_most_100_iterations_counterexample :
    (callSubscribers retAll 7 sessP100 stP100).iters = 101 ∧
    ¬ (callSubscribers retAll 7 sessP100 stP100).iters ≤ 100 ∧
    (callSubscribers retAll 7 sessP100 stP100).isPanicked = true ∧
    (callSubscribers retAll 7 sessP100 stP100).state.errorCounters =
      ["nfqueue_priority_constraint"] := by decide

/-- C8 (amended): the priority walk performs at most 101 iterations (priority
tiers 0 through 100) for every subscription list, aborting with a fatal
error rather than looping further; for subscription lists whose priorities
are all below 100 — every priority the registry uses — it performs at most
100 iterations and never aborts. -/
theorem c8_priority_walk_bound (o : String → PluginOutcome) (ctid : Nat)
    (sess : Session) (st : DispatchState) :
    (callSubscribers o ctid sess st).iters ≤ 101 ∧
    ((∀ h ∈ sess.subscriptions, h.priority < 100) →
      ¬ (callSubscribers o ctid sess st).isPanicked = true ∧
      (callSubscribers o ctid sess st).iters ≤ 100) :=
  ⟨callSubscribers_iters_le o ctid sess st,
    fun hall => callSubscribers_no_panic o ctid sess st hall⟩

/-- C8 witness: the amended bound applied to the concrete priority-3
subscription list. -/
theorem c8_priority_walk_bound_witness :
    (∀ h ∈ sessSlow.subscriptions, h.priority < 100) ∧
    (¬ (callSubscribers retAll 7 sessSlow stSlow).isPanicked = true ∧
      (callSubscribers retAll 7 sessSlow stSlow).iters ≤ 100) :=
  ⟨by decide, (c8_priority_walk_bound retAll 7 sessSlow stSlow).2 (by decide)⟩

/-- C9: the ruleset sets conntrack-mark bit 0x80000000 on every new locally
generated outbound flow (packetd-output) and on every new locally destined
inbound flow except DNS on port 53 (packetd-input returns for UDP/TCP dport
53 before marking), and the packetd-queue chain returns — never queues to
userspace — any packet whose conntrack mark carries that bit. -/
theorem c9_local_flows_marked_and_bypassed :
    (∀ (be : Bool) (p : NftPacket), p.ctStateNew = true →
      (packetdOutput be p).1.ctMark.land 0x80000000 = 0x80000000) ∧
    (∀ p : NftPacket, p.ctStateNew = true → ¬ p.udpDport = some 53 →
      ¬ p.tcpDport = some 53 →
      (packetdInput p).ctMark.land 0x80000000 = 0x80000000) ∧
    (∀ p : NftPacket, p.udpDport = some 53 ∨ p.tcpDport = some 53 →
      packetdInput p = p) ∧
    (∀ (be : Bool) (p : NftPacket),
      p.ctMark.land 0x80000000 = 0x80000000 →
      (packetdQueue be p).queued = false) := by
  refine ⟨?_, ?_, ?_, fun be p h => packetdQueue_not_queued_of_mark be p h⟩
  · intro be p h
    unfold packetdOutput
    dsimp only
    rw [if_pos h]
    exact lor_land_self _ _
  · intro p h hu ht
    unfold packetdInput
    rw [if_neg hu, if_neg ht, if_pos h]
    exact lor_land_self _ _
  · intro p h
    unfold packetdInput
    rcases h with h | h
    · rw [if_pos h]
    · by_cases hu : p.udpDport = some 53
      · rw [if_pos hu]
      · rw [if_neg hu, if_pos h]

/-- C9 witness: a concrete new locally destined SSH packet gets the
conntrack-mark bit, and once marked the queue chain does not queue it. -/
theorem c9_local_flows_marked_and_bypassed_witness :
    (npLocalIn.ctStateNew = true ∧ ¬ npLocalIn.udpDport = some 53 ∧
      ¬ npLocalIn.tcpDport = some 53) ∧
    (packetdInput npLocalIn).ctMark.land 0x80000000 = 0x80000000 ∧
    (packetdQueue false
      { npLocalIn with ctMark := npLocalIn.ctMark.lor 0x80000000 }).queued =
      false :=
  ⟨⟨by decide, by decide, by decide⟩,
    c9_local_flows_marked_and_bypassed.2.1 npLocalIn (by decide) (by decide)
      (by decide),
    c9_local_flows_marked_and_bypassed.2.2.2 false
      { npLocalIn with ctMark := npLocalIn.ctMark.lor 0x80000000 }
      (by decide)⟩

/-- C10: calling ReleaseSession on a session whose subscription set is
already empty returns immediately and changes nothing at all, and no
bypass_packetd write happens unless the removal empties a previously
non-empty set — the write occurs only on the non-empty-to-empty
transition. -/
theorem c10_release_noop_when_empty :
    (∀ (st : DispatchState) (ctid : Nat) (owner : String) (sess : Session),
      findSession st ctid = some sess → sess.subscriptions = [] →
      ReleaseSession st ctid owner = st) ∧
    (∀ (st : DispatchState) (ctid : Nat) (owner : String) (sess : Session),
      findSession st ctid = some sess →
      ¬ (sess.subscriptions.filter (fun h => ¬ h.owner = owner)).length = 0 →
      (ReleaseSession st ctid owner).dictSessions = st.dictSessions) :=
  ⟨fun st ctid owner sess hf hs =>
      ReleaseSession_noop_of_empty st ctid owner sess hf hs,
    fun st ctid owner sess hf hne =>
      ReleaseSession_dict_unchanged st ctid owner sess hf hne⟩

/-- C10 witness: releasing any owner on the concrete subscription-free
session leaves the state untouched. -/
theorem c10_release_noop_when_empty_witness :
    (findSession stBare 3 = some sessBare ∧ sessBare.subscriptions = []) ∧
    ReleaseSession stBare 3 "geoip" = stBare :=
  ⟨⟨by decide, by decide⟩,
    c10_release_noop_when_empty.1 stBare 3 "geoip" sessBare (by decide)
      (by decide)⟩

end Packetd
